import Mathlib

/-!
Shallow embedding of the provenance-verification subsystem of stacklok/dockyard
(packages internal/provenance/{domain,sigstore,npm,pypi,service}).

Network I/O and the external sigstore-go cryptographic library are modelled as
oracle fields of a world record (one field per external call site); everything
the repository's own Go code does with the oracles' answers is embedded as
executable Lean functions that follow the Go control flow line by line.

Conventions:
- Go `error` return values are `Option String` (the error message); `nil` is
  `Option.none`.
- Go `(result *T, err error)` pairs are `Option T × Option String`.
- Go maps are association lists (`List (String × α)`) with `mapLookup` /
  `assocInsert`; Go JSON `interface{}` values are `JsonVal`.
- Go byte slices are `List Nat`.
-/

namespace Dockyard

/-- A decoded JSON value, the model of Go `interface{}` fields populated by
`encoding/json` (npm `dist.attestations`, `dist.signatures`, `repository`). -/
inductive JsonVal where
  | str (s : String)
  | num (n : Int)
  | boolean (b : Bool)
  | null
  | arr (xs : List JsonVal)
  | obj (fields : List (String × JsonVal))

/-- Go map lookup `m[k]` on an association list: first binding wins. -/
def mapLookup (m : List (String × α)) (k : String) : Option α :=
  match m with
  | [] => Option.none
  | (k2, v) :: rest => if k2 == k then some v else mapLookup rest k

/-- Go map assignment `m[k] = v`: replace the binding if present, else append. -/
def assocInsert (m : List (String × α)) (k : String) (v : α) : List (String × α) :=
  match m with
  | [] => [(k, v)]
  | (k2, v2) :: rest =>
    if k2 == k then (k, v) :: rest else (k2, v2) :: assocInsert rest k v

/-- `listStartsWith s p` is true when `p` is an initial segment of `s`. -/
def listStartsWith : List Char → List Char → Bool
  | _, [] => true
  | [], _ :: _ => false
  | c :: cs, p :: ps => c == p && listStartsWith cs ps

/-- `hasSubList sub s` is true when `sub` occurs contiguously inside `s`. -/
def hasSubList (sub : List Char) : List Char → Bool
  | [] => sub.isEmpty
  | c :: cs => listStartsWith (c :: cs) sub || hasSubList sub cs

/-- Go `strings.Contains s substr`. -/
def goContains (s substr : String) : Bool :=
  hasSubList substr.toList s.toList

/-- domain.ProvenanceStatus: a Go string type. -/
abbrev ProvenanceStatus := String

/-- domain.ProvenanceStatusVerified -/
def ProvenanceStatusVerified : ProvenanceStatus := "VERIFIED"

/-- domain.ProvenanceStatusSignatures -/
def ProvenanceStatusSignatures : ProvenanceStatus := "SIGNATURES"

/-- domain.ProvenanceStatusAttestations -/
def ProvenanceStatusAttestations : ProvenanceStatus := "ATTESTATIONS"

/-- domain.ProvenanceStatusTrustedPublisher -/
def ProvenanceStatusTrustedPublisher : ProvenanceStatus := "TRUSTED_PUBLISHER"

/-- domain.ProvenanceStatusNone -/
def ProvenanceStatusNone : ProvenanceStatus := "NONE"

/-- domain.ProvenanceStatusUnknown -/
def ProvenanceStatusUnknown : ProvenanceStatus := "UNKNOWN"

/-- domain.ProvenanceStatusError -/
def ProvenanceStatusError : ProvenanceStatus := "ERROR"

/-- domain.PackageProtocol: a Go string type. -/
abbrev PackageProtocol := String

/-- domain.ProtocolNPM -/
def ProtocolNPM : PackageProtocol := "npx"

/-- domain.ProtocolPyPI -/
def ProtocolPyPI : PackageProtocol := "uvx"

/-- domain.ProtocolGo -/
def ProtocolGo : PackageProtocol := "go"

/-- domain.PackageIdentifier -/
structure PackageIdentifier where
  Protocol : PackageProtocol
  Name : String
  Version : String
deriving DecidableEq, Repr

/-- domain.TrustedPublisher -/
structure TrustedPublisher where
  Kind : String
  Repository : String
  Workflow : String
  Claims : List (String × JsonVal)

/-- A value stored in the free-form `Details map[string]interface{}` of a
result: the verifiers store error strings, raw JSON values, and string lists. -/
inductive DetailVal where
  | str (s : String)
  | json (j : JsonVal)
  | strList (l : List String)

/-- domain.ProvenanceResult. Defaults are the Go zero values of the fields the
verifiers leave unset on some paths. -/
structure ProvenanceResult where
  PackageID : PackageIdentifier
  Status : ProvenanceStatus := ""
  HasAttestations : Bool := false
  AttestationCount : Nat := 0
  HasSignatures : Bool := false
  TrustedPublisher : Option Dockyard.TrustedPublisher := Option.none
  RepositoryURI : String := ""
  ErrorMessage : String := ""
  Details : List (String × DetailVal) := []

/-- sigstore-go's `verify.VerificationResult`, opaque to this repository's
code: the npm/pypi verifiers only test it against nil. -/
structure VerificationResult where
  ok : Unit := ()

/-- `verify.CertificateIdentity` built by `verify.NewShortCertificateIdentity`,
opaque to this repository's code: it is only passed back into the library. -/
structure CertificateIdentity where
  issuer : String := ""
  sanRegex : String := ""

/-- sigstore.ExtractPublisherInfo: nil in, nil out; otherwise a publisher with
`Kind = "Verified"` and empty claims. -/
def ExtractPublisherInfo (result : Option VerificationResult) :
    Option TrustedPublisher :=
  match result with
  | Option.none => Option.none
  | some _ => some { Kind := "Verified", Repository := "", Workflow := "", Claims := [] }

namespace Npm

/-- npm.Dist: distribution metadata of one version. `Attestations` and
`Signatures` are Go `interface{}` (nil-able JSON values). -/
structure Dist where
  Attestations : Option JsonVal := Option.none
  Signatures : Option JsonVal := Option.none
  Tarball : String := ""
  Shasum : String := ""
  Integrity : String := ""

/-- npm.VersionMetadata -/
structure VersionMetadata where
  Version : String := ""
  Dist : Npm.Dist := {}

/-- npm.PackageMetadata. `Versions` is the Go `map[string]VersionMetadata`;
`Repository` is the nil-able `map[string]interface{}`. -/
structure PackageMetadata where
  Name : String := ""
  Versions : List (String × VersionMetadata) := []
  Repository : Option (List (String × JsonVal)) := Option.none

/-- The external calls the npm verifier makes, one oracle per call site:
HTTP fetches through `httpClient`, the stdlib hash and JSON marshal, and the
sigstore-go library (`NewShortCertificateIdentity`, `BundleVerifier.VerifyBundle`
— the latter covers bundle parsing, policy construction and cryptographic
verification, all external library code). An `Except.error e` models a Go
non-nil error with message `e` (for HTTP it also covers non-200 responses and
body-read failures, which the Go code folds into an error return). -/
structure NpmWorld where
  fetchPackageMetadata : String → Except String PackageMetadata
  httpGet : String → Except String (List Nat)
  sha512 : List Nat → List Nat
  jsonMarshal : JsonVal → Except String (List Nat)
  newShortCertificateIdentity :
    String → String → String → String → Except String CertificateIdentity
  verifyBundle :
    List Nat → String → List Nat → List CertificateIdentity →
    Except String VerificationResult

/-- npm.Verifier.calculateTarballDigest: download the tarball and hash it with
SHA-512. -/
def calculateTarballDigest (w : NpmWorld) (tarballURL : String) :
    Except String (List Nat) :=
  match w.httpGet tarballURL with
  | Except.error e => Except.error ("failed to fetch tarball: " ++ e)
  | Except.ok body => Except.ok (w.sha512 body)

/-- npm.Verifier.verifyBundleData: compute the tarball digest, build the
GitHub-Actions certificate-identity policy, and verify the bundle. Returns the
Go triple `(verified bool, publisher *TrustedPublisher, err error)`. -/
def verifyBundleData (w : NpmWorld) (bundleData : List Nat)
    (versionData : VersionMetadata) :
    Bool × Option TrustedPublisher × Option String :=
  match calculateTarballDigest w versionData.Dist.Tarball with
  | Except.error e =>
    (false, Option.none, some ("failed to calculate artifact digest: " ++ e))
  | Except.ok artifactDigest =>
    match w.newShortCertificateIdentity
        "https://token.actions.githubusercontent.com" "" ""
        "^https://github.com/.*" with
    | Except.error e =>
      (false, Option.none, some ("failed to create certificate identity: " ++ e))
    | Except.ok certID =>
      match w.verifyBundle bundleData "sha512" artifactDigest [certID] with
      | Except.error e => (false, Option.none, some e)
      | Except.ok verifyResult =>
        (true, ExtractPublisherInfo (some verifyResult), Option.none)

/-- npm.Verifier.verifyAttestations: the `dist.attestations` value must be a
JSON object (the Go type assertion to `map[string]interface{}`); if it carries
a `url` string the bundle is fetched from there, otherwise the object itself is
re-marshalled and treated as the bundle. -/
def verifyAttestations (w : NpmWorld) (versionData : VersionMetadata) :
    Bool × Option TrustedPublisher × Option String :=
  match versionData.Dist.Attestations with
  | some (JsonVal.obj attestationData) =>
    (match mapLookup attestationData "url" with
     | some (JsonVal.str bundleURL) =>
       (match w.httpGet bundleURL with
        | Except.error e =>
          (false, Option.none, some ("failed to fetch attestation: " ++ e))
        | Except.ok bundleData => verifyBundleData w bundleData versionData)
     | _ =>
       (match w.jsonMarshal (JsonVal.obj attestationData) with
        | Except.error e =>
          (false, Option.none, some ("failed to marshal attestation data: " ++ e))
        | Except.ok bundleBytes => verifyBundleData w bundleBytes versionData))
  | _ => (false, Option.none, some "attestations in unexpected format")

/-- The body of npm.Verifier.Verify after the version lookup succeeded: the
attestations / signatures / none three-way branch, building the result's
decision fields. -/
def coreResult (w : NpmWorld) (pkg : PackageIdentifier)
    (versionData : VersionMetadata) : ProvenanceResult :=
  match versionData.Dist.Attestations with
  | some _ =>
    (match verifyAttestations w versionData with
     | (_, _, some e) =>
       { PackageID := pkg, Status := ProvenanceStatusAttestations,
         HasAttestations := true,
         ErrorMessage := "attestation verification failed: " ++ e,
         Details := [("verification_error", DetailVal.str e)] }
     | (true, publisher, Option.none) =>
       { PackageID := pkg, Status := ProvenanceStatusVerified,
         HasAttestations := true, TrustedPublisher := publisher,
         AttestationCount := 1 }
     | (false, _, Option.none) =>
       { PackageID := pkg, Status := ProvenanceStatusAttestations,
         HasAttestations := true })
  | Option.none =>
    match versionData.Dist.Signatures with
    | some sigs =>
      { PackageID := pkg, Status := ProvenanceStatusSignatures,
        HasSignatures := true,
        Details := [("signatures", DetailVal.json sigs)] }
    | Option.none =>
      { PackageID := pkg, Status := ProvenanceStatusNone }

/-- The trailing step of npm.Verifier.Verify: copy `repository.url` out of the
registry metadata into `RepositoryURI` when it is present and a string. -/
def applyRepo (metadata : PackageMetadata) (r : ProvenanceResult) :
    ProvenanceResult :=
  match metadata.Repository with
  | some repo =>
    (match mapLookup repo "url" with
     | some (JsonVal.str repoURL) => { r with RepositoryURI := repoURL }
     | _ => r)
  | Option.none => r

/-- npm.Verifier.Verify. -/
def Verify (w : NpmWorld) (pkg : PackageIdentifier) :
    Option ProvenanceResult × Option String :=
  if pkg.Protocol != ProtocolNPM then
    (Option.none, some ("npm verifier does not support protocol " ++ pkg.Protocol))
  else
    match w.fetchPackageMetadata pkg.Name with
    | Except.error e =>
      (some { PackageID := pkg, Status := ProvenanceStatusError,
              ErrorMessage := "failed to fetch package metadata: " ++ e },
       some e)
    | Except.ok metadata =>
      match mapLookup metadata.Versions pkg.Version with
      | Option.none =>
        (some { PackageID := pkg, Status := ProvenanceStatusError,
                ErrorMessage := "version " ++ pkg.Version ++ " not found" },
         some ("version " ++ pkg.Version ++ " not found in registry"))
      | some versionData =>
        (some (applyRepo metadata (coreResult w pkg versionData)), Option.none)

/-- npm.Verifier.SupportsProtocol. -/
def SupportsProtocol (protocol : PackageProtocol) : Bool :=
  protocol == ProtocolNPM

end Npm

namespace Pypi

/-- pypi.File: one entry of the PEP 691 Simple-API file listing. `Provenance`
is `""` when the field is absent (Go `omitempty` zero value). -/
structure File where
  Filename : String := ""
  URL : String := ""
  Provenance : String := ""
  Hashes : List (String × String) := []

/-- pypi.SimpleMetadata -/
structure SimpleMetadata where
  Name : String := ""
  Files : List File := []

/-- pypi.Publisher: declared trusted-publisher info inside a PEP 740
provenance object. -/
structure Publisher where
  Kind : String := ""
  Repository : String := ""
  Workflow : String := ""
  Claims : List (String × JsonVal) := []

/-- pypi.AttestationBundle -/
structure AttestationBundle where
  Publisher : Pypi.Publisher := {}
  Attestations : List JsonVal := []

/-- pypi.ProvenanceObject -/
structure ProvenanceObject where
  Version : Int := 0
  AttestationBundles : List AttestationBundle := []

/-- The external calls the PyPI verifier makes, one oracle per call site
(HTTP fetches, `hex.DecodeString`, `json.Marshal`, SHA-256 download+hash, and
the sigstore-go library calls). -/
structure PypiWorld where
  fetchSimpleMetadata : String → Except String SimpleMetadata
  fetchProvenanceData : String → Except String ProvenanceObject
  jsonMarshal : JsonVal → Except String (List Nat)
  hexDecodeString : String → Except String (List Nat)
  downloadAndHashFile : String → Except String (List Nat)
  newShortCertificateIdentity :
    String → String → String → String → Except String CertificateIdentity
  verifyBundle :
    List Nat → String → List Nat → List CertificateIdentity →
    Except String VerificationResult

/-- pypi.Verifier.verifyProvenance: fetch the provenance object for one file,
take the first attestation of the first bundle, determine the artifact digest
(published sha256 hash if present, else download+hash), build the
publisher-derived policy, verify, and merge publisher info. Returns the Go
triple `(verified bool, publisher *TrustedPublisher, err error)`. -/
def verifyProvenance (w : PypiWorld) (file : File) :
    Bool × Option TrustedPublisher × Option String :=
  match w.fetchProvenanceData file.Provenance with
  | Except.error e =>
    (false, Option.none, some ("failed to fetch provenance: " ++ e))
  | Except.ok provenanceData =>
    match provenanceData.AttestationBundles with
    | [] => (false, Option.none, some "no attestation bundles in provenance")
    | bundle :: _ =>
      match bundle.Attestations with
      | [] => (false, Option.none, some "no attestations in bundle")
      | att :: _ =>
        match w.jsonMarshal att with
        | Except.error e =>
          (false, Option.none, some ("failed to marshal attestation: " ++ e))
        | Except.ok attestationBytes =>
          let digestResult : Except String (List Nat) :=
            match mapLookup file.Hashes "sha256" with
            | some sha256Hash =>
              (match w.hexDecodeString sha256Hash with
               | Except.error e =>
                 Except.error ("failed to decode sha256 hash: " ++ e)
               | Except.ok d => Except.ok d)
            | Option.none =>
              (match w.downloadAndHashFile file.URL with
               | Except.error e => Except.error ("failed to hash file: " ++ e)
               | Except.ok d => Except.ok d)
          match digestResult with
          | Except.error e => (false, Option.none, some e)
          | Except.ok artifactDigest =>
            let policyOpts : List CertificateIdentity :=
              if bundle.Publisher.Kind == "GitHub" &&
                  bundle.Publisher.Repository != "" then
                (match w.newShortCertificateIdentity
                    "https://token.actions.githubusercontent.com" "" ""
                    ("^https://github.com/" ++ bundle.Publisher.Repository ++ "/") with
                 | Except.ok certID => [certID]
                 | Except.error _ => [])
              else []
            match w.verifyBundle attestationBytes "sha256" artifactDigest
                policyOpts with
            | Except.error e => (false, Option.none, some e)
            | Except.ok verifyResult =>
              let base : TrustedPublisher :=
                { Kind := bundle.Publisher.Kind,
                  Repository := bundle.Publisher.Repository,
                  Workflow := bundle.Publisher.Workflow,
                  Claims := bundle.Publisher.Claims }
              let publisher : TrustedPublisher :=
                match ExtractPublisherInfo (some verifyResult) with
                | some extracted =>
                  { base with
                    Kind := if base.Kind == "" then extracted.Kind else base.Kind,
                    Repository :=
                      if base.Repository == "" then extracted.Repository
                      else base.Repository }
                | Option.none => base
              (true, some publisher, Option.none)

/-- The loop condition of pypi.Verifier.Verify, deciding whether a file is an
attestation candidate: `strings.Contains(file.Filename, pkg.Version) &&
file.Provenance != ""`. -/
def isCandidate (version : String) (file : File) : Bool :=
  goContains file.Filename version && file.Provenance != ""

/-- The mutable state of the file loop in pypi.Verifier.Verify:
`result.AttestationCount`, `result.Details`, `verifiedFiles`, `firstPublisher`. -/
structure LoopState where
  attestationCount : Nat := 0
  details : List (String × DetailVal) := []
  verifiedFiles : List String := []
  firstPublisher : Option TrustedPublisher := Option.none

/-- One iteration of the file loop in pypi.Verifier.Verify: a file counts as a
candidate when its filename contains the requested version and it declares a
provenance URL; a verification error is recorded in the details keyed by
filename; a verified file is appended and supplies `firstPublisher` if still
unset. -/
def processFile (w : PypiWorld) (version : String) (st : LoopState)
    (file : File) : LoopState :=
  if isCandidate version file then
    let st1 : LoopState := { st with attestationCount := st.attestationCount + 1 }
    match verifyProvenance w file with
    | (_, _, some e) =>
      let key : String := "verification_error_" ++ file.Filename
      { st1 with details := assocInsert st1.details key (DetailVal.str e) }
    | (verified, publisher, Option.none) =>
      if verified then
        { st1 with
          verifiedFiles := st1.verifiedFiles ++ [file.Filename],
          firstPublisher :=
            match st1.firstPublisher with
            | Option.none => publisher
            | some p => some p }
      else st1
  else st

/-- The status-resolution tail of pypi.Verifier.Verify, turning the final loop
state into the result: `VERIFIED` when at least one file verified (publisher =
`firstPublisher`), else `ATTESTATIONS` when candidates existed, else `NONE`. -/
def buildResult (pkg : PackageIdentifier) (st : LoopState) : ProvenanceResult :=
  if st.verifiedFiles.length > 0 then
    { PackageID := pkg, Status := ProvenanceStatusVerified,
      HasAttestations := true, AttestationCount := st.attestationCount,
      TrustedPublisher := st.firstPublisher,
      Details :=
        assocInsert st.details "verified_files"
          (DetailVal.strList st.verifiedFiles) }
  else if st.attestationCount > 0 then
    { PackageID := pkg, Status := ProvenanceStatusAttestations,
      HasAttestations := true, AttestationCount := st.attestationCount,
      ErrorMessage := "attestations found but verification failed",
      Details := st.details }
  else
    { PackageID := pkg, Status := ProvenanceStatusNone,
      AttestationCount := st.attestationCount, Details := st.details }

/-- pypi.Verifier.Verify. -/
def Verify (w : PypiWorld) (pkg : PackageIdentifier) :
    Option ProvenanceResult × Option String :=
  if pkg.Protocol != ProtocolPyPI then
    (Option.none, some ("pypi verifier does not support protocol " ++ pkg.Protocol))
  else
    match w.fetchSimpleMetadata pkg.Name with
    | Except.error e =>
      (some { PackageID := pkg, Status := ProvenanceStatusError,
              ErrorMessage := "failed to fetch package metadata: " ++ e },
       some e)
    | Except.ok simpleMetadata =>
      let st := simpleMetadata.Files.foldl (processFile w pkg.Version) {}
      (some (buildResult pkg st), Option.none)

/-- pypi.Verifier.SupportsProtocol. -/
def SupportsProtocol (protocol : PackageProtocol) : Bool :=
  protocol == ProtocolPyPI

end Pypi

namespace Service

/-- A registered domain.ProvenanceVerifier interface value: its two methods,
with any world state the implementation closes over already applied. -/
structure RegVerifier where
  SupportsProtocol : PackageProtocol → Bool
  Verify : PackageIdentifier → Option ProvenanceResult × Option String

/-- service.Service: the protocol → verifier registry. The `sync.RWMutex` is
not modelled: the registry is only written by `RegisterVerifier` and read by
`VerifyProvenance`, and under the lock those are linearized, so each call sees
one plain map value. -/
structure Service where
  verifiers : List (PackageProtocol × RegVerifier) := []

/-- service.New -/
def New : Service := { verifiers := [] }

/-- service.Service.RegisterVerifier. Go mutates the receiver only on the
success path, so the returned pair is (updated-or-unchanged service, error). -/
def RegisterVerifier (s : Service) (protocol : PackageProtocol)
    (verifier : Option RegVerifier) : Service × Option String :=
  match verifier with
  | Option.none => (s, some "verifier cannot be nil")
  | some v =>
    if !(v.SupportsProtocol protocol) then
      (s, some ("verifier does not support protocol " ++ protocol))
    else
      ({ s with verifiers := assocInsert s.verifiers protocol v }, Option.none)

/-- service.Service.VerifyProvenance. -/
def VerifyProvenance (s : Service) (pkg : PackageIdentifier) :
    Option ProvenanceResult × Option String :=
  match mapLookup s.verifiers pkg.Protocol with
  | Option.none =>
    (some { PackageID := pkg, Status := ProvenanceStatusUnknown,
            ErrorMessage := "no verifier registered for protocol " ++ pkg.Protocol },
     Option.none)
  | some verifier =>
    match verifier.Verify pkg with
    | (_, some e) =>
      (some { PackageID := pkg, Status := ProvenanceStatusError,
              ErrorMessage := e },
       some e)
    | (result, Option.none) => (result, Option.none)

/-- The post-join error scan of service.Service.BatchVerify: the first non-nil
entry of the per-package error slice, in index order. -/
def firstError : List (Option String) → Option String
  | [] => Option.none
  | some e :: _ => some e
  | Option.none :: rest => firstError rest

/-- service.Service.BatchVerify. Each goroutine writes `results[idx]` and
`errors[idx]` for its own index only and otherwise touches no shared mutable
state, so after `wg.Wait()` slot `i` holds exactly
`VerifyProvenance s packages[i]` — the fan-out/fan-in collapses to a map. -/
def BatchVerify (s : Service) (packages : List PackageIdentifier) :
    List (Option ProvenanceResult) × Option String :=
  let outcomes := packages.map (fun p => VerifyProvenance s p)
  (outcomes.map Prod.fst, firstError (outcomes.map Prod.snd))

end Service

/-- The npm verifier as a registrable interface value (what
`service.RegisterVerifier(domain.ProtocolNPM, npmVerifier)` in cmd/dockhand
passes in). -/
def npmRegVerifier (w : Npm.NpmWorld) : Service.RegVerifier :=
  { SupportsProtocol := Npm.SupportsProtocol, Verify := Npm.Verify w }

/-- The PyPI verifier as a registrable interface value. -/
def pypiRegVerifier (w : Pypi.PypiWorld) : Service.RegVerifier :=
  { SupportsProtocol := Pypi.SupportsProtocol, Verify := Pypi.Verify w }

/-! ## Helper lemmas -/

/-- Every outcome of npm verifyBundleData is either a success carrying a
non-nil publisher and nil error, or a failure carrying a nil publisher and a
non-nil error. -/
theorem Npm.verifyBundleData_shape (w : Npm.NpmWorld) (bundleData : List Nat)
    (versionData : Npm.VersionMetadata) :
    (∃ p, Npm.verifyBundleData w bundleData versionData = (true, some p, Option.none)) ∨
    (∃ e, Npm.verifyBundleData w bundleData versionData = (false, Option.none, some e)) := by
  unfold Npm.verifyBundleData
  split
  · exact Or.inr ⟨_, rfl⟩
  · split
    · exact Or.inr ⟨_, rfl⟩
    · split
      · exact Or.inr ⟨_, rfl⟩
      · exact Or.inl ⟨_, rfl⟩

/-- Every outcome of npm verifyAttestations is either a success carrying a
non-nil publisher and nil error, or a failure carrying a non-nil error. -/
theorem Npm.verifyAttestations_shape (w : Npm.NpmWorld)
    (versionData : Npm.VersionMetadata) :
    (∃ p, Npm.verifyAttestations w versionData = (true, some p, Option.none)) ∨
    (∃ e, Npm.verifyAttestations w versionData = (false, Option.none, some e)) := by
  unfold Npm.verifyAttestations
  split
  · split
    · split
      · exact Or.inr ⟨_, rfl⟩
      · exact Npm.verifyBundleData_shape _ _ _
    · split
      · exact Or.inr ⟨_, rfl⟩
      · exact Npm.verifyBundleData_shape _ _ _
  · exact Or.inr ⟨_, rfl⟩

/-- Every outcome of pypi verifyProvenance is either a success carrying a
non-nil publisher and nil error, or a failure carrying a nil publisher and a
non-nil error. -/
theorem Pypi.verifyProvenance_shape (w : Pypi.PypiWorld) (file : Pypi.File) :
    (∃ p, Pypi.verifyProvenance w file = (true, some p, Option.none)) ∨
    (∃ e, Pypi.verifyProvenance w file = (false, Option.none, some e)) := by
  unfold Pypi.verifyProvenance
  repeat' (first | split | dsimp only)
  all_goals first
  | exact Or.inl ⟨_, rfl⟩
  | exact Or.inr ⟨_, rfl⟩

/-- A candidate file counts as verified when `verifyProvenance` succeeded for
it (nil error and `verified == true`). -/
def Pypi.fileVerified (w : Pypi.PypiWorld) (file : Pypi.File) : Bool :=
  match Pypi.verifyProvenance w file with
  | (verified, _, Option.none) => verified
  | (_, _, some _) => false

theorem Pypi.processFile_attestationCount (w : Pypi.PypiWorld) (version : String)
    (st : Pypi.LoopState) (file : Pypi.File) :
    (Pypi.processFile w version st file).attestationCount =
      st.attestationCount + (if Pypi.isCandidate version file then 1 else 0) := by
  rcases Pypi.verifyProvenance_shape w file with ⟨p, hp⟩ | ⟨e, he⟩
  · cases hc : Pypi.isCandidate version file <;> simp [Pypi.processFile, hp, hc]
  · cases hc : Pypi.isCandidate version file <;> simp [Pypi.processFile, he, hc]

theorem Pypi.processFile_verifiedFiles (w : Pypi.PypiWorld) (version : String)
    (st : Pypi.LoopState) (file : Pypi.File) :
    (Pypi.processFile w version st file).verifiedFiles =
      st.verifiedFiles ++
        (if Pypi.isCandidate version file && Pypi.fileVerified w file then
          [file.Filename] else []) := by
  rcases Pypi.verifyProvenance_shape w file with ⟨p, hp⟩ | ⟨e, he⟩
  · cases hc : Pypi.isCandidate version file <;>
      simp [Pypi.processFile, Pypi.fileVerified, hp, hc]
  · cases hc : Pypi.isCandidate version file <;>
      simp [Pypi.processFile, Pypi.fileVerified, he, hc]

theorem mapLookup_assocInsert (m : List (String × α)) (k k2 : String) (v : α) :
    mapLookup (assocInsert m k v) k2 =
      if k == k2 then some v else mapLookup m k2 := by
  induction m with
  | nil => simp [assocInsert, mapLookup]
  | cons e rest ih =>
    obtain ⟨ek, ev⟩ := e
    simp only [assocInsert]
    by_cases h1 : ek = k
    · subst h1
      by_cases hk2 : ek = k2 <;> simp [mapLookup, hk2]
    · by_cases h2 : ek = k2
      · subst h2
        have hne : (k == ek) = false := by
          simp only [beq_eq_false_iff_ne]
          exact fun hh => h1 hh.symm
        simp [mapLookup, h1, hne]
      · have hne2 : (ek == k2) = false := by simp [h2]
        simp [mapLookup, h1, hne2, ih]

theorem Pypi.processFile_details_persists (w : Pypi.PypiWorld) (version : String)
    (st : Pypi.LoopState) (file : Pypi.File) (k : String)
    (h : (mapLookup st.details k).isSome) :
    (mapLookup (Pypi.processFile w version st file).details k).isSome := by
  rcases Pypi.verifyProvenance_shape w file with ⟨p, hp⟩ | ⟨e, he⟩
  · cases hc : Pypi.isCandidate version file <;>
      simp [Pypi.processFile, hp, hc, h]
  · cases hc : Pypi.isCandidate version file <;>
      simp [Pypi.processFile, he, hc, mapLookup_assocInsert, h]
    split <;> simp [h]

theorem Pypi.processFile_details_self (w : Pypi.PypiWorld) (version : String)
    (st : Pypi.LoopState) (file : Pypi.File) (e : String)
    (hc : Pypi.isCandidate version file = true)
    (he : (Pypi.verifyProvenance w file).2.2 = some e) :
    mapLookup (Pypi.processFile w version st file).details
        ("verification_error_" ++ file.Filename) = some (DetailVal.str e) := by
  rcases Pypi.verifyProvenance_shape w file with ⟨p, hp⟩ | ⟨e2, he2⟩
  · rw [hp] at he; simp at he
  · rw [he2] at he
    simp only [Option.some.injEq] at he
    subst he
    simp [Pypi.processFile, he2, hc, mapLookup_assocInsert]

theorem Pypi.foldl_details_persists (w : Pypi.PypiWorld) (version : String) :
    ∀ (files : List Pypi.File) (st : Pypi.LoopState) (k : String),
    (mapLookup st.details k).isSome →
    (mapLookup ((files.foldl (Pypi.processFile w version) st)).details k).isSome := by
  intro files
  induction files with
  | nil => intro st k h; simpa using h
  | cons f fs ih =>
    intro st k h
    simp only [List.foldl_cons]
    exact ih _ k (Pypi.processFile_details_persists w version st f k h)

theorem Pypi.foldl_details_records_failures (w : Pypi.PypiWorld) (version : String) :
    ∀ (files : List Pypi.File) (st : Pypi.LoopState) (f : Pypi.File) (e : String),
    f ∈ files → Pypi.isCandidate version f = true →
    (Pypi.verifyProvenance w f).2.2 = some e →
    (mapLookup ((files.foldl (Pypi.processFile w version) st)).details
        ("verification_error_" ++ f.Filename)).isSome := by
  intro files
  induction files with
  | nil => intro st f e hmem; simp at hmem
  | cons f2 fs ih =>
    intro st f e hmem hc he
    simp only [List.foldl_cons]
    rcases List.mem_cons.mp hmem with heq | hmem2
    · subst heq
      exact Pypi.foldl_details_persists w version fs _ _
        (by rw [Pypi.processFile_details_self w version st f e hc he]; rfl)
    · exact ih _ f e hmem2 hc he

theorem Pypi.processFile_firstPublisher (w : Pypi.PypiWorld) (version : String)
    (st : Pypi.LoopState) (file : Pypi.File) :
    (Pypi.processFile w version st file).firstPublisher =
      if Pypi.isCandidate version file && Pypi.fileVerified w file then
        (match st.firstPublisher with
         | some p => some p
         | Option.none => (Pypi.verifyProvenance w file).2.1)
      else st.firstPublisher := by
  rcases Pypi.verifyProvenance_shape w file with ⟨p, hp⟩ | ⟨e, he⟩
  · cases hc : Pypi.isCandidate version file
    · simp [Pypi.processFile, Pypi.fileVerified, hp, hc]
    · simp only [Pypi.processFile, Pypi.fileVerified, hp, hc, Bool.and_self,
        if_true]
      cases st.firstPublisher <;> simp [Pypi.processFile, Pypi.fileVerified, hp, hc]
  · cases hc : Pypi.isCandidate version file <;>
      simp [Pypi.processFile, Pypi.fileVerified, he, hc]

theorem Pypi.foldl_attestationCount (w : Pypi.PypiWorld) (version : String) :
    ∀ (files : List Pypi.File) (st : Pypi.LoopState),
    (files.foldl (Pypi.processFile w version) st).attestationCount =
      st.attestationCount + (files.filter (Pypi.isCandidate version)).length := by
  intro files
  induction files with
  | nil => intro st; simp
  | cons f fs ih =>
    intro st
    simp only [List.foldl_cons, List.filter_cons, ih,
      Pypi.processFile_attestationCount]
    cases hc : Pypi.isCandidate version f <;> simp [hc] <;> omega

theorem Pypi.foldl_verifiedFiles (w : Pypi.PypiWorld) (version : String) :
    ∀ (files : List Pypi.File) (st : Pypi.LoopState),
    (files.foldl (Pypi.processFile w version) st).verifiedFiles =
      st.verifiedFiles ++
        (((files.filter (Pypi.isCandidate version)).filter
            (Pypi.fileVerified w)).map Pypi.File.Filename) := by
  intro files
  induction files with
  | nil => intro st; simp
  | cons f fs ih =>
    intro st
    simp only [List.foldl_cons, List.filter_cons, ih, Pypi.processFile_verifiedFiles]
    cases hc : Pypi.isCandidate version f <;>
      cases hv : Pypi.fileVerified w f <;>
        simp [hc, hv, List.filter_cons]

theorem Pypi.foldl_firstPublisher_some (w : Pypi.PypiWorld) (version : String) :
    ∀ (files : List Pypi.File) (st : Pypi.LoopState) (p : TrustedPublisher),
    st.firstPublisher = some p →
    (files.foldl (Pypi.processFile w version) st).firstPublisher = some p := by
  intro files
  induction files with
  | nil => intro st p h; simpa using h
  | cons f fs ih =>
    intro st p h
    simp only [List.foldl_cons]
    apply ih
    rw [Pypi.processFile_firstPublisher, h]
    cases hb : Pypi.isCandidate version f && Pypi.fileVerified w f <;> simp

theorem Pypi.foldl_firstPublisher (w : Pypi.PypiWorld) (version : String) :
    ∀ (files : List Pypi.File) (st : Pypi.LoopState),
    st.firstPublisher = Option.none →
    (files.foldl (Pypi.processFile w version) st).firstPublisher =
      (match (files.filter (Pypi.isCandidate version)).filter (Pypi.fileVerified w) with
       | [] => Option.none
       | f :: _ => (Pypi.verifyProvenance w f).2.1) := by
  intro files
  induction files with
  | nil => intro st h; simpa using h
  | cons f fs ih =>
    intro st h
    simp only [List.foldl_cons, List.filter_cons]
    cases hc : Pypi.isCandidate version f
    · simp only [Bool.false_eq_true, if_false]
      rw [ih]
      rw [Pypi.processFile_firstPublisher, h, hc]
      simp
    · cases hv : Pypi.fileVerified w f
      · simp only [hc, if_true, List.filter_cons, hv, Bool.false_eq_true, if_false]
        rw [ih]
        rw [Pypi.processFile_firstPublisher, h, hc, hv]
        simp
      · simp only [hc, if_true, List.filter_cons, hv]
        rcases Pypi.verifyProvenance_shape w f with ⟨p, hp⟩ | ⟨e, he⟩
        · have hfp : (Pypi.processFile w version st f).firstPublisher = some p := by
            rw [Pypi.processFile_firstPublisher, h, hc, hv]
            simp [hp]
          rw [Pypi.foldl_firstPublisher_some w version fs _ p hfp]
          simp [hp]
        · exfalso
          rw [Pypi.fileVerified, he] at hv
          simp at hv

/-- A string starting with a non-empty literal is non-empty. -/
theorem string_append_ne_empty (a b : String) (h : a.length ≠ 0) :
    a ++ b ≠ "" := by
  intro heq
  have h2 := congrArg String.length heq
  simp [String.length_append] at h2
  exact h h2.1

/-- npm Verify on the happy metadata path reduces to the attestation branch
result with the repository URI applied. -/
theorem Npm.npmVerify_ok (w : Npm.NpmWorld) (pkg : PackageIdentifier)
    (metadata : Npm.PackageMetadata) (versionData : Npm.VersionMetadata)
    (hp : pkg.Protocol = ProtocolNPM)
    (hm : w.fetchPackageMetadata pkg.Name = Except.ok metadata)
    (hv : mapLookup metadata.Versions pkg.Version = some versionData) :
    Npm.Verify w pkg =
      (some (Npm.applyRepo metadata (Npm.coreResult w pkg versionData)),
       Option.none) := by
  simp [Npm.Verify, hp, hm, hv]

/-- pypi Verify on the happy metadata path reduces to the built result of the
final loop state. -/
theorem Pypi.pypiVerify_ok (w : Pypi.PypiWorld) (pkg : PackageIdentifier)
    (md : Pypi.SimpleMetadata)
    (hp : pkg.Protocol = ProtocolPyPI)
    (hm : w.fetchSimpleMetadata pkg.Name = Except.ok md) :
    Pypi.Verify w pkg =
      (some (Pypi.buildResult pkg
        (md.Files.foldl (Pypi.processFile w pkg.Version) {})), Option.none) := by
  simp [Pypi.Verify, hp, hm]

/-- applyRepo only sets RepositoryURI; every other result field is unchanged. -/
theorem Npm.applyRepo_preserves (metadata : Npm.PackageMetadata)
    (r : ProvenanceResult) :
    (Npm.applyRepo metadata r).PackageID = r.PackageID ∧
    (Npm.applyRepo metadata r).Status = r.Status ∧
    (Npm.applyRepo metadata r).HasAttestations = r.HasAttestations ∧
    (Npm.applyRepo metadata r).AttestationCount = r.AttestationCount ∧
    (Npm.applyRepo metadata r).HasSignatures = r.HasSignatures ∧
    (Npm.applyRepo metadata r).TrustedPublisher = r.TrustedPublisher ∧
    (Npm.applyRepo metadata r).ErrorMessage = r.ErrorMessage ∧
    (Npm.applyRepo metadata r).Details = r.Details := by
  unfold Npm.applyRepo
  repeat' split
  all_goals simp

/-- Every possible shape of a (result, error) pair returned by npm Verify. -/
theorem Npm.npmVerify_some_inv (w : Npm.NpmWorld) (pkg : PackageIdentifier)
    (r : ProvenanceResult) (x : Option String)
    (h : Npm.Verify w pkg = (some r, x)) :
    (∃ e, r = { PackageID := pkg, Status := ProvenanceStatusError,
                ErrorMessage := "failed to fetch package metadata: " ++ e } ∧
        x = some e) ∨
    (r = { PackageID := pkg, Status := ProvenanceStatusError,
           ErrorMessage := "version " ++ pkg.Version ++ " not found" } ∧
      x = some ("version " ++ pkg.Version ++ " not found in registry")) ∨
    (∃ metadata versionData,
      w.fetchPackageMetadata pkg.Name = Except.ok metadata ∧
      mapLookup metadata.Versions pkg.Version = some versionData ∧
      r = Npm.applyRepo metadata (Npm.coreResult w pkg versionData) ∧
      x = Option.none) := by
  unfold Npm.Verify at h
  split at h
  · simp at h
  · split at h
    · simp only [Prod.mk.injEq, Option.some.injEq] at h
      exact Or.inl ⟨_, h.1.symm, h.2.symm⟩
    · split at h
      · simp only [Prod.mk.injEq, Option.some.injEq] at h
        exact Or.inr (Or.inl ⟨h.1.symm, h.2.symm⟩)
      · simp only [Prod.mk.injEq, Option.some.injEq] at h
        exact Or.inr (Or.inr ⟨_, _, by assumption, by assumption,
          h.1.symm, h.2.symm⟩)

/-- Every possible shape of a (result, error) pair returned by pypi Verify. -/
theorem Pypi.pypiVerify_some_inv (w : Pypi.PypiWorld) (pkg : PackageIdentifier)
    (r : ProvenanceResult) (x : Option String)
    (h : Pypi.Verify w pkg = (some r, x)) :
    (∃ e, r = { PackageID := pkg, Status := ProvenanceStatusError,
                ErrorMessage := "failed to fetch package metadata: " ++ e } ∧
        x = some e) ∨
    (∃ md, w.fetchSimpleMetadata pkg.Name = Except.ok md ∧
      r = Pypi.buildResult pkg
        (md.Files.foldl (Pypi.processFile w pkg.Version) {}) ∧
      x = Option.none) := by
  unfold Pypi.Verify at h
  split at h
  · simp at h
  · split at h
    · simp only [Prod.mk.injEq, Option.some.injEq] at h
      exact Or.inl ⟨_, h.1.symm, h.2.symm⟩
    · simp only [Prod.mk.injEq, Option.some.injEq] at h
      exact Or.inr ⟨_, by assumption, h.1.symm, h.2.symm⟩

/-- If the coreResult of npm Verify reports VERIFIED, it carries
HasAttestations and a non-nil publisher. -/
theorem Npm.coreResult_verified_inv (w : Npm.NpmWorld) (pkg : PackageIdentifier)
    (vd : Npm.VersionMetadata)
    (hs : (Npm.coreResult w pkg vd).Status = ProvenanceStatusVerified) :
    (Npm.coreResult w pkg vd).HasAttestations = true ∧
    (Npm.coreResult w pkg vd).TrustedPublisher.isSome = true := by
  rcases ha : vd.Dist.Attestations with _ | j
  · rcases hsig : vd.Dist.Signatures with _ | sg
    · simp only [Npm.coreResult, ha, hsig] at hs
      exact absurd hs (by decide)
    · simp only [Npm.coreResult, ha, hsig] at hs
      exact absurd hs (by decide)
  · rcases Npm.verifyAttestations_shape w vd with ⟨p, hvp⟩ | ⟨e, hve⟩
    · simp [Npm.coreResult, ha, hvp]
    · simp only [Npm.coreResult, ha, hve] at hs
      exact absurd hs (by decide)

/-- In the final pypi loop state, a non-empty verified-files list forces a
non-nil firstPublisher. -/
theorem Pypi.finalState_publisher (w : Pypi.PypiWorld) (version : String)
    (files : List Pypi.File)
    (hne : (files.foldl (Pypi.processFile w version) {}).verifiedFiles ≠ []) :
    ((files.foldl (Pypi.processFile w version) {}).firstPublisher).isSome = true := by
  have hv := Pypi.foldl_verifiedFiles w version files {}
  have hf := Pypi.foldl_firstPublisher w version files {} (by rfl)
  cases hfil : (files.filter (Pypi.isCandidate version)).filter (Pypi.fileVerified w) with
  | nil =>
    rw [hv, hfil] at hne
    simp at hne
  | cons f rest =>
    rw [hf, hfil]
    have hmem : f ∈ (files.filter (Pypi.isCandidate version)).filter
        (Pypi.fileVerified w) := by
      rw [hfil]
      exact List.mem_cons_self f rest
    have hfv : Pypi.fileVerified w f = true := (List.mem_filter.mp hmem).2
    rcases Pypi.verifyProvenance_shape w f with ⟨p, hp⟩ | ⟨e, he⟩
    · simp [hp]
    · rw [Pypi.fileVerified, he] at hfv
      simp at hfv

/-! ## Claim theorems -/

/-- C1: a VERIFIED result from the npm verifier, the PyPI verifier, or the
Service (given that its registered verifiers have this property, which the two
registered verifiers do) has hasAttestations true and a non-nil
trustedPublisher. -/
theorem verified_status_implies_attestations_and_publisher :
    (∀ (w : Npm.NpmWorld) (pkg : PackageIdentifier) (r : ProvenanceResult)
        (x : Option String),
      Npm.Verify w pkg = (some r, x) → r.Status = ProvenanceStatusVerified →
      r.HasAttestations = true ∧ r.TrustedPublisher.isSome = true) ∧
    (∀ (w : Pypi.PypiWorld) (pkg : PackageIdentifier) (r : ProvenanceResult)
        (x : Option String),
      Pypi.Verify w pkg = (some r, x) → r.Status = ProvenanceStatusVerified →
      r.HasAttestations = true ∧ r.TrustedPublisher.isSome = true) ∧
    (∀ (s : Service.Service) (pkg : PackageIdentifier) (r : ProvenanceResult)
        (x : Option String),
      (∀ v, mapLookup s.verifiers pkg.Protocol = some v →
        ∀ r2, v.Verify pkg = (some r2, Option.none) →
        r2.Status = ProvenanceStatusVerified →
        r2.HasAttestations = true ∧ r2.TrustedPublisher.isSome = true) →
      Service.VerifyProvenance s pkg = (some r, x) →
      r.Status = ProvenanceStatusVerified →
      r.HasAttestations = true ∧ r.TrustedPublisher.isSome = true) := by
  refine ⟨?_, ?_, ?_⟩
  · intro w pkg r x h hs
    rcases Npm.npmVerify_some_inv w pkg r x h with
      ⟨e, hr, _⟩ | ⟨hr, _⟩ | ⟨md, vd, hm, hv, hr, hx⟩
    · subst hr
      simp [ProvenanceStatusError, ProvenanceStatusVerified] at hs
    · subst hr
      simp [ProvenanceStatusError, ProvenanceStatusVerified] at hs
    · subst hr
      obtain ⟨_, hst, hha, _, _, htp, _, _⟩ :=
        Npm.applyRepo_preserves md (Npm.coreResult w pkg vd)
      rw [hst] at hs
      obtain ⟨h1, h2⟩ := Npm.coreResult_verified_inv w pkg vd hs
      rw [hha, htp]
      exact ⟨h1, h2⟩
  · intro w pkg r x h hs
    rcases Pypi.pypiVerify_some_inv w pkg r x h with ⟨e, hr, _⟩ | ⟨md, hm, hr, hx⟩
    · subst hr
      simp [ProvenanceStatusError, ProvenanceStatusVerified] at hs
    · subst hr
      by_cases hlen :
          (md.Files.foldl (Pypi.processFile w pkg.Version) {}).verifiedFiles.length > 0
      · have hfp := Pypi.finalState_publisher w pkg.Version md.Files (by
          intro hnil
          rw [hnil] at hlen
          simp at hlen)
        simp [Pypi.buildResult, hlen, hfp]
      · by_cases hcnt :
            (md.Files.foldl (Pypi.processFile w pkg.Version) {}).attestationCount > 0
        · simp [Pypi.buildResult, hlen, hcnt, ProvenanceStatusAttestations,
            ProvenanceStatusVerified] at hs
        · simp [Pypi.buildResult, hlen, hcnt, ProvenanceStatusNone,
            ProvenanceStatusVerified] at hs
  · intro s pkg r x H h hs
    unfold Service.VerifyProvenance at h
    split at h
    · simp only [Prod.mk.injEq, Option.some.injEq] at h
      rw [← h.1] at hs
      simp [ProvenanceStatusUnknown, ProvenanceStatusVerified] at hs
    · rename_i verifier hlook
      split at h
      · simp only [Prod.mk.injEq, Option.some.injEq] at h
        rw [← h.1] at hs
        simp [ProvenanceStatusError, ProvenanceStatusVerified] at hs
      · rename_i result heq
        simp only [Prod.mk.injEq] at h
        obtain ⟨h1, h2⟩ := h
        refine H verifier hlook r ?_ hs
        rw [heq, h1]

/-- npm metadata of a package whose single version carries a URL-referenced
attestation bundle, for exercising the fully successful verification path. -/
def npmVerifiedVD : Npm.VersionMetadata :=
  { Version := "1.0.0",
    Dist :=
      { Attestations :=
          some (JsonVal.obj
            [("url", JsonVal.str "https://registry.npmjs.org/-/npm/v1/attestations/mcp-proxy@1.0.0")]),
        Signatures := Option.none,
        Tarball := "https://registry.npmjs.org/mcp-proxy/-/mcp-proxy-1.0.0.tgz" } }

/-- Registry metadata holding `npmVerifiedVD` under version 1.0.0. -/
def npmVerifiedMeta : Npm.PackageMetadata :=
  { Name := "mcp-proxy", Versions := [("1.0.0", npmVerifiedVD)],
    Repository := Option.none }

/-- A world in which every fetch and the bundle verification succeed. -/
def npmVerifiedWorld : Npm.NpmWorld :=
  { fetchPackageMetadata := fun _ => Except.ok npmVerifiedMeta,
    httpGet := fun _ => Except.ok [1, 2, 3],
    sha512 := fun _ => [7, 7],
    jsonMarshal := fun _ => Except.ok [9],
    newShortCertificateIdentity := fun issuer _ _ san =>
      Except.ok { issuer := issuer, sanRegex := san },
    verifyBundle := fun _ _ _ _ => Except.ok {} }

/-- The package identity matching `npmVerifiedMeta`. -/
def npmVerifiedPkg : PackageIdentifier :=
  { Protocol := ProtocolNPM, Name := "mcp-proxy", Version := "1.0.0" }

/-- The result the npm verifier produces in `npmVerifiedWorld`. -/
def npmVerifiedResult : ProvenanceResult :=
  { PackageID := npmVerifiedPkg, Status := ProvenanceStatusVerified,
    HasAttestations := true, AttestationCount := 1,
    TrustedPublisher :=
      some { Kind := "Verified", Repository := "", Workflow := "", Claims := [] } }

/-- Witness for C1: a concrete fully successful npm verification yields
VERIFIED, and the claim theorem applies to it. -/
theorem verified_status_witness :
    Npm.Verify npmVerifiedWorld npmVerifiedPkg = (some npmVerifiedResult, Option.none) ∧
    npmVerifiedResult.Status = ProvenanceStatusVerified ∧
    (npmVerifiedResult.HasAttestations = true ∧
      npmVerifiedResult.TrustedPublisher.isSome = true) :=
  ⟨rfl, rfl,
    verified_status_implies_attestations_and_publisher.1 npmVerifiedWorld
      npmVerifiedPkg npmVerifiedResult Option.none rfl rfl⟩

/-- C7: For every package whose ecosystem has no registered verifier in the
Service, VerifyProvenance returns a result with status UNKNOWN and a non-empty
message, together with a nil error. -/
theorem service_unregistered_protocol_unknown (s : Service.Service)
    (pkg : PackageIdentifier)
    (h : mapLookup s.verifiers pkg.Protocol = Option.none) :
    ∃ r, Service.VerifyProvenance s pkg = (some r, Option.none) ∧
      r.Status = ProvenanceStatusUnknown ∧ r.ErrorMessage ≠ "" := by
  have heq : Service.VerifyProvenance s pkg =
      (some { PackageID := pkg, Status := ProvenanceStatusUnknown,
              ErrorMessage := "no verifier registered for protocol " ++ pkg.Protocol },
       Option.none) := by
    unfold Service.VerifyProvenance
    rw [h]
  exact ⟨_, heq, rfl,
    string_append_ne_empty "no verifier registered for protocol " pkg.Protocol
      (by decide)⟩

/-- Witness for C7: the fresh service has no verifier for the go protocol, and
VerifyProvenance on a go package reports UNKNOWN with a message and no error. -/
theorem service_unregistered_protocol_unknown_witness :
    mapLookup (Service.New).verifiers ProtocolGo = Option.none ∧
    (∃ r, Service.VerifyProvenance Service.New
        { Protocol := ProtocolGo, Name := "golang.org/x/tools", Version := "0.1.0" } =
        (some r, Option.none) ∧
      r.Status = ProvenanceStatusUnknown ∧ r.ErrorMessage ≠ "") :=
  ⟨rfl, service_unregistered_protocol_unknown Service.New
    { Protocol := ProtocolGo, Name := "golang.org/x/tools", Version := "0.1.0" } rfl⟩

/-- C8: RegisterVerifier with a nil verifier, or with a verifier that does not
support the requested ecosystem, returns a non-nil error and leaves the
registry unchanged. -/
theorem register_verifier_rejects_and_leaves_registry (s : Service.Service)
    (protocol : PackageProtocol) (verifier : Option Service.RegVerifier)
    (h : verifier = Option.none ∨
      ∃ v, verifier = some v ∧ v.SupportsProtocol protocol = false) :
    (Service.RegisterVerifier s protocol verifier).2 ≠ Option.none ∧
    (Service.RegisterVerifier s protocol verifier).1 = s := by
  rcases h with h | ⟨v, hv, hs⟩
  · subst h
    exact ⟨by simp [Service.RegisterVerifier], rfl⟩
  · subst hv
    simp [Service.RegisterVerifier, hs]

/-- A verifier that supports no protocol at all, used to exercise the
registration capability check. -/
def rejectedVerifier : Service.RegVerifier :=
  { SupportsProtocol := fun _ => false,
    Verify := fun _ => (Option.none, Option.none) }

/-- Witness for C8: registering a verifier whose SupportsProtocol check fails
for npx yields an error and the empty registry stays empty. -/
theorem register_verifier_rejects_witness :
    (some rejectedVerifier = (Option.none : Option Service.RegVerifier) ∨
      ∃ v, some rejectedVerifier = some v ∧ v.SupportsProtocol ProtocolNPM = false) ∧
    ((Service.RegisterVerifier Service.New ProtocolNPM (some rejectedVerifier)).2 ≠
        Option.none ∧
      (Service.RegisterVerifier Service.New ProtocolNPM (some rejectedVerifier)).1 =
        Service.New) :=
  ⟨Or.inr ⟨rejectedVerifier, rfl, rfl⟩,
    register_verifier_rejects_and_leaves_registry Service.New ProtocolNPM
      (some rejectedVerifier) (Or.inr ⟨rejectedVerifier, rfl, rfl⟩)⟩

/-- The npm attestation/signature/none branch only ever yields one of the four
detection statuses. -/
theorem Npm.coreResult_status (w : Npm.NpmWorld) (pkg : PackageIdentifier)
    (vd : Npm.VersionMetadata) :
    (Npm.coreResult w pkg vd).Status = ProvenanceStatusVerified ∨
    (Npm.coreResult w pkg vd).Status = ProvenanceStatusAttestations ∨
    (Npm.coreResult w pkg vd).Status = ProvenanceStatusSignatures ∨
    (Npm.coreResult w pkg vd).Status = ProvenanceStatusNone := by
  rcases ha : vd.Dist.Attestations with _ | j
  · rcases hsig : vd.Dist.Signatures with _ | sg
    · simp [Npm.coreResult, ha, hsig]
    · simp [Npm.coreResult, ha, hsig]
  · rcases Npm.verifyAttestations_shape w vd with ⟨p, hvp⟩ | ⟨e, hve⟩
    · simp [Npm.coreResult, ha, hvp]
    · simp [Npm.coreResult, ha, hve]

/-- The pypi status resolution only ever yields one of the three detection
statuses. -/
theorem Pypi.buildResult_status (pkg : PackageIdentifier) (st : Pypi.LoopState) :
    (Pypi.buildResult pkg st).Status = ProvenanceStatusVerified ∨
    (Pypi.buildResult pkg st).Status = ProvenanceStatusAttestations ∨
    (Pypi.buildResult pkg st).Status = ProvenanceStatusNone := by
  unfold Pypi.buildResult
  split
  · simp
  · split
    · simp
    · simp

/-- C9: no execution path of the npm verifier, the PyPI verifier, or the
Service produces status TRUSTED_PUBLISHER; npm results lie in
{VERIFIED, ATTESTATIONS, SIGNATURES, NONE, ERROR}, PyPI results lie in
{VERIFIED, ATTESTATIONS, NONE, ERROR} (so SIGNATURES only comes from npm), and
a Service whose registered verifiers never report TRUSTED_PUBLISHER never
reports it either. -/
theorem trusted_publisher_status_unreachable :
    (∀ (w : Npm.NpmWorld) (pkg : PackageIdentifier) (r : ProvenanceResult)
        (x : Option String),
      Npm.Verify w pkg = (some r, x) →
      r.Status = ProvenanceStatusVerified ∨
      r.Status = ProvenanceStatusAttestations ∨
      r.Status = ProvenanceStatusSignatures ∨
      r.Status = ProvenanceStatusNone ∨
      r.Status = ProvenanceStatusError) ∧
    (∀ (w : Pypi.PypiWorld) (pkg : PackageIdentifier) (r : ProvenanceResult)
        (x : Option String),
      Pypi.Verify w pkg = (some r, x) →
      r.Status = ProvenanceStatusVerified ∨
      r.Status = ProvenanceStatusAttestations ∨
      r.Status = ProvenanceStatusNone ∨
      r.Status = ProvenanceStatusError) ∧
    (∀ (s : Service.Service) (pkg : PackageIdentifier) (r : ProvenanceResult)
        (x : Option String),
      (∀ v, mapLookup s.verifiers pkg.Protocol = some v →
        ∀ r2, v.Verify pkg = (some r2, Option.none) →
        r2.Status ≠ ProvenanceStatusTrustedPublisher) →
      Service.VerifyProvenance s pkg = (some r, x) →
      r.Status ≠ ProvenanceStatusTrustedPublisher) := by
  refine ⟨?_, ?_, ?_⟩
  · intro w pkg r x h
    rcases Npm.npmVerify_some_inv w pkg r x h with
      ⟨e, hr, _⟩ | ⟨hr, _⟩ | ⟨md, vd, hm, hv, hr, hx⟩
    · subst hr; simp
    · subst hr; simp
    · subst hr
      obtain ⟨_, hst, _⟩ := Npm.applyRepo_preserves md (Npm.coreResult w pkg vd)
      rw [hst]
      rcases Npm.coreResult_status w pkg vd with h1 | h1 | h1 | h1 <;> simp [h1]
  · intro w pkg r x h
    rcases Pypi.pypiVerify_some_inv w pkg r x h with ⟨e, hr, _⟩ | ⟨md, hm, hr, hx⟩
    · subst hr; simp
    · subst hr
      rcases Pypi.buildResult_status pkg
          (md.Files.foldl (Pypi.processFile w pkg.Version) {}) with h1 | h1 | h1 <;>
        simp [h1]
  · intro s pkg r x H h
    unfold Service.VerifyProvenance at h
    split at h
    · simp only [Prod.mk.injEq, Option.some.injEq] at h
      rw [← h.1]
      simp [ProvenanceStatusUnknown, ProvenanceStatusTrustedPublisher]
    · rename_i verifier hlook
      split at h
      · simp only [Prod.mk.injEq, Option.some.injEq] at h
        rw [← h.1]
        simp [ProvenanceStatusError, ProvenanceStatusTrustedPublisher]
      · rename_i result heq
        simp only [Prod.mk.injEq] at h
        refine H verifier hlook r ?_
        rw [heq, h.1]

/-- Version metadata carrying only a legacy ECDSA signature block. -/
def npmSignaturesVD : Npm.VersionMetadata :=
  { Version := "2.0.0",
    Dist :=
      { Attestations := Option.none,
        Signatures :=
          some (JsonVal.arr [JsonVal.obj
            [("keyid", JsonVal.str "SHA256:key"), ("sig", JsonVal.str "MEYCIQ")]]),
        Tarball := "https://registry.npmjs.org/context7/-/context7-2.0.0.tgz" } }

/-- A world whose registry metadata holds `npmSignaturesVD`; no other oracle is
reached on this path. -/
def npmSignaturesWorld : Npm.NpmWorld :=
  { fetchPackageMetadata := fun _ => Except.ok
      { Name := "context7", Versions := [("2.0.0", npmSignaturesVD)],
        Repository := Option.none },
    httpGet := fun _ => Except.error "unused",
    sha512 := fun _ => [],
    jsonMarshal := fun _ => Except.error "unused",
    newShortCertificateIdentity := fun _ _ _ _ => Except.error "unused",
    verifyBundle := fun _ _ _ _ => Except.error "unused" }

/-- The package identity matching `npmSignaturesWorld`. -/
def npmSignaturesPkg : PackageIdentifier :=
  { Protocol := ProtocolNPM, Name := "context7", Version := "2.0.0" }

/-- The result of the npm verifier on the legacy-signatures package. -/
def npmSignaturesResult : ProvenanceResult :=
  { PackageID := npmSignaturesPkg, Status := ProvenanceStatusSignatures,
    HasSignatures := true,
    Details :=
      [("signatures",
        DetailVal.json (JsonVal.arr [JsonVal.obj
          [("keyid", JsonVal.str "SHA256:key"), ("sig", JsonVal.str "MEYCIQ")]]))] }

/-- Witness for C9: a concrete legacy-signatures run lands in the allowed
status set (and in particular is not TRUSTED_PUBLISHER). -/
theorem trusted_publisher_status_unreachable_witness :
    Npm.Verify npmSignaturesWorld npmSignaturesPkg =
      (some npmSignaturesResult, Option.none) ∧
    (npmSignaturesResult.Status = ProvenanceStatusVerified ∨
      npmSignaturesResult.Status = ProvenanceStatusAttestations ∨
      npmSignaturesResult.Status = ProvenanceStatusSignatures ∨
      npmSignaturesResult.Status = ProvenanceStatusNone ∨
      npmSignaturesResult.Status = ProvenanceStatusError) :=
  ⟨rfl,
    trusted_publisher_status_unreachable.1 npmSignaturesWorld npmSignaturesPkg
      npmSignaturesResult Option.none rfl⟩


/-- npm verifyAttestations never reads the legacy signatures field. -/
theorem Npm.verifyAttestations_ignores_signatures (w : Npm.NpmWorld)
    (vd : Npm.VersionMetadata) (sigs : Option JsonVal) :
    Npm.verifyAttestations w { vd with Dist := { vd.Dist with Signatures := sigs } } =
      Npm.verifyAttestations w vd := rfl

/-- With attestations present, no branch of the npm result construction sets
HasSignatures or a signatures detail, and the whole branch result is invariant
under changing the signatures field. -/
theorem Npm.coreResult_attestations_branch (w : Npm.NpmWorld)
    (pkg : PackageIdentifier) (vd : Npm.VersionMetadata) (j : JsonVal)
    (ha : vd.Dist.Attestations = some j) :
    (Npm.coreResult w pkg vd).HasSignatures = false ∧
    mapLookup (Npm.coreResult w pkg vd).Details "signatures" = Option.none ∧
    (∀ sigs, Npm.coreResult w pkg { vd with Dist := { vd.Dist with Signatures := sigs } } =
      Npm.coreResult w pkg vd) := by
  refine ⟨?_, ?_, ?_⟩
  · rcases Npm.verifyAttestations_shape w vd with ⟨p, hvp⟩ | ⟨e, hve⟩
    · simp [Npm.coreResult, ha, hvp]
    · simp [Npm.coreResult, ha, hve]
  · rcases Npm.verifyAttestations_shape w vd with ⟨p, hvp⟩ | ⟨e, hve⟩
    · simp [Npm.coreResult, ha, hvp, mapLookup]
    · simp [Npm.coreResult, ha, hve, mapLookup]
  · intro sigs
    obtain ⟨ver, d⟩ := vd
    obtain ⟨att, sg, tb, sh, ig⟩ := d
    dsimp only at ha
    subst ha
    have hinv : Npm.verifyAttestations w ⟨ver, ⟨some j, sigs, tb, sh, ig⟩⟩ =
        Npm.verifyAttestations w ⟨ver, ⟨some j, sg, tb, sh, ig⟩⟩ := rfl
    simp only [Npm.coreResult]
    rw [hinv]

/-- npm never sets HasAttestations and HasSignatures in the same branch. -/
theorem Npm.coreResult_not_both (w : Npm.NpmWorld) (pkg : PackageIdentifier)
    (vd : Npm.VersionMetadata) :
    ¬((Npm.coreResult w pkg vd).HasAttestations = true ∧
      (Npm.coreResult w pkg vd).HasSignatures = true) := by
  rcases ha : vd.Dist.Attestations with _ | j
  · rcases hsig : vd.Dist.Signatures with _ | sg
    · simp [Npm.coreResult, ha, hsig]
    · simp [Npm.coreResult, ha, hsig]
  · rcases Npm.verifyAttestations_shape w vd with ⟨p, hvp⟩ | ⟨e, hve⟩
    · simp [Npm.coreResult, ha, hvp]
    · simp [Npm.coreResult, ha, hve]

/-- C10: when an npm version's metadata carries both attestations and
signatures, only the attestations branch runs: the result has
hasSignatures false, no signatures detail is recorded, the branch result does
not depend on the signatures field at all, and consequently no npm result ever
has hasAttestations and hasSignatures both true. -/
theorem npm_attestations_shadow_signatures :
    (∀ (w : Npm.NpmWorld) (pkg : PackageIdentifier)
        (metadata : Npm.PackageMetadata) (vd : Npm.VersionMetadata) (j : JsonVal),
      pkg.Protocol = ProtocolNPM →
      w.fetchPackageMetadata pkg.Name = Except.ok metadata →
      mapLookup metadata.Versions pkg.Version = some vd →
      vd.Dist.Attestations = some j →
      ∃ r, Npm.Verify w pkg = (some r, Option.none) ∧
        r.HasSignatures = false ∧
        mapLookup r.Details "signatures" = Option.none ∧
        (∀ sigs,
          Npm.coreResult w pkg { vd with Dist := { vd.Dist with Signatures := sigs } } =
            Npm.coreResult w pkg vd)) ∧
    (∀ (w : Npm.NpmWorld) (pkg : PackageIdentifier) (r : ProvenanceResult)
        (x : Option String),
      Npm.Verify w pkg = (some r, x) →
      ¬(r.HasAttestations = true ∧ r.HasSignatures = true)) := by
  constructor
  · intro w pkg metadata vd j hp hm hv ha
    obtain ⟨hsig, hdet, hinv⟩ := Npm.coreResult_attestations_branch w pkg vd j ha
    obtain ⟨_, _, _, _, hps, _, _, hpd⟩ :=
      Npm.applyRepo_preserves metadata (Npm.coreResult w pkg vd)
    exact ⟨_, Npm.npmVerify_ok w pkg metadata vd hp hm hv,
      hps.trans hsig, hpd ▸ hdet, hinv⟩
  · intro w pkg r x h
    rcases Npm.npmVerify_some_inv w pkg r x h with
      ⟨e, hr, _⟩ | ⟨hr, _⟩ | ⟨md, vd, hm, hv, hr, hx⟩
    · subst hr; simp
    · subst hr; simp
    · subst hr
      obtain ⟨_, _, hha, _, hhs, _, _, _⟩ :=
        Npm.applyRepo_preserves md (Npm.coreResult w pkg vd)
      rw [hha, hhs]
      exact Npm.coreResult_not_both w pkg vd

/-- Version metadata carrying both an (ill-formed, non-object) attestations
value and a legacy signatures block. -/
def npmBothVD : Npm.VersionMetadata :=
  { Version := "3.0.0",
    Dist :=
      { Attestations := some (JsonVal.arr []),
        Signatures := some (JsonVal.obj [("keyid", JsonVal.str "SHA256:zzz")]),
        Tarball := "https://registry.npmjs.org/both/-/both-3.0.0.tgz" } }

/-- A world whose registry metadata holds `npmBothVD`. -/
def npmBothWorld : Npm.NpmWorld :=
  { fetchPackageMetadata := fun _ => Except.ok
      { Name := "both", Versions := [("3.0.0", npmBothVD)],
        Repository := Option.none },
    httpGet := fun _ => Except.error "unused",
    sha512 := fun _ => [],
    jsonMarshal := fun _ => Except.error "unused",
    newShortCertificateIdentity := fun _ _ _ _ => Except.error "unused",
    verifyBundle := fun _ _ _ _ => Except.error "unused" }

/-- The package identity matching `npmBothWorld`. -/
def npmBothPkg : PackageIdentifier :=
  { Protocol := ProtocolNPM, Name := "both", Version := "3.0.0" }

/-- Witness for C10: with both provenance shapes present, the npm verifier
reports the attestation outcome and ignores the signatures block. -/
theorem npm_attestations_shadow_signatures_witness :
    npmBothVD.Dist.Attestations = some (JsonVal.arr []) ∧
    npmBothVD.Dist.Signatures =
      some (JsonVal.obj [("keyid", JsonVal.str "SHA256:zzz")]) ∧
    (∃ r, Npm.Verify npmBothWorld npmBothPkg = (some r, Option.none) ∧
      r.HasSignatures = false ∧
      mapLookup r.Details "signatures" = Option.none ∧
      (∀ sigs,
        Npm.coreResult npmBothWorld npmBothPkg
            { npmBothVD with Dist := { npmBothVD.Dist with Signatures := sigs } } =
          Npm.coreResult npmBothWorld npmBothPkg npmBothVD)) :=
  ⟨rfl, rfl,
    npm_attestations_shadow_signatures.1 npmBothWorld npmBothPkg
      { Name := "both", Versions := [("3.0.0", npmBothVD)], Repository := Option.none }
      npmBothVD (JsonVal.arr []) rfl rfl rfl rfl⟩


/-- C4: an npm package whose version metadata contains attestation material
but whose verification attempt fails yields status ATTESTATIONS with
hasAttestations true (never VERIFIED, never NONE), records the failure in
errorMessage and details, and the Verify call returns no error. -/
theorem npm_failed_attestations_downgrade (w : Npm.NpmWorld)
    (pkg : PackageIdentifier) (metadata : Npm.PackageMetadata)
    (vd : Npm.VersionMetadata) (j : JsonVal)
    (hp : pkg.Protocol = ProtocolNPM)
    (hm : w.fetchPackageMetadata pkg.Name = Except.ok metadata)
    (hv : mapLookup metadata.Versions pkg.Version = some vd)
    (ha : vd.Dist.Attestations = some j)
    (hfail : (Npm.verifyAttestations w vd).1 = false) :
    ∃ r e, Npm.Verify w pkg = (some r, Option.none) ∧
      r.Status = ProvenanceStatusAttestations ∧
      r.HasAttestations = true ∧
      r.Status ≠ ProvenanceStatusVerified ∧
      r.Status ≠ ProvenanceStatusNone ∧
      r.ErrorMessage = "attestation verification failed: " ++ e ∧
      r.ErrorMessage ≠ "" ∧
      mapLookup r.Details "verification_error" = some (DetailVal.str e) := by
  rcases Npm.verifyAttestations_shape w vd with ⟨p, hvp⟩ | ⟨e, hve⟩
  · rw [hvp] at hfail
    simp at hfail
  · obtain ⟨hid, hst, hha, hcnt, hhs, htp, hem, hdet⟩ :=
      Npm.applyRepo_preserves metadata (Npm.coreResult w pkg vd)
    have hcore : Npm.coreResult w pkg vd =
        { PackageID := pkg, Status := ProvenanceStatusAttestations,
          HasAttestations := true,
          ErrorMessage := "attestation verification failed: " ++ e,
          Details := [("verification_error", DetailVal.str e)] } := by
      simp [Npm.coreResult, ha, hve]
    refine ⟨_, e, Npm.npmVerify_ok w pkg metadata vd hp hm hv, ?_, ?_, ?_, ?_, ?_, ?_, ?_⟩
    · rw [hst, hcore]
    · rw [hha, hcore]
    · rw [hst, hcore]
      simp [ProvenanceStatusAttestations, ProvenanceStatusVerified]
    · rw [hst, hcore]
      simp [ProvenanceStatusAttestations, ProvenanceStatusNone]
    · rw [hem, hcore]
    · rw [hem, hcore]
      exact string_append_ne_empty "attestation verification failed: " e (by decide)
    · rw [hdet, hcore]
      simp [mapLookup]

/-- Version metadata with a URL-referenced attestation bundle whose signature
check will fail. -/
def npmBadSigVD : Npm.VersionMetadata :=
  { Version := "4.0.0",
    Dist :=
      { Attestations :=
          some (JsonVal.obj
            [("url", JsonVal.str "https://registry.npmjs.org/-/npm/v1/attestations/badsig@4.0.0")]),
        Signatures := Option.none,
        Tarball := "https://registry.npmjs.org/badsig/-/badsig-4.0.0.tgz" } }

/-- A world in which all fetches succeed but the cryptographic bundle
verification rejects the signature. -/
def npmBadSigWorld : Npm.NpmWorld :=
  { fetchPackageMetadata := fun _ => Except.ok
      { Name := "badsig", Versions := [("4.0.0", npmBadSigVD)],
        Repository := Option.none },
    httpGet := fun _ => Except.ok [5, 5],
    sha512 := fun _ => [1],
    jsonMarshal := fun _ => Except.ok [],
    newShortCertificateIdentity := fun issuer _ _ san =>
      Except.ok { issuer := issuer, sanRegex := san },
    verifyBundle := fun _ _ _ _ =>
      Except.error "bundle verification failed: signature mismatch" }

/-- The package identity matching `npmBadSigWorld`. -/
def npmBadSigPkg : PackageIdentifier :=
  { Protocol := ProtocolNPM, Name := "badsig", Version := "4.0.0" }

/-- Witness for C4: a concrete failed-signature npm run is downgraded to
ATTESTATIONS with the failure recorded and a nil call error. -/
theorem npm_failed_attestations_downgrade_witness :
    (Npm.verifyAttestations npmBadSigWorld npmBadSigVD).1 = false ∧
    (∃ r e, Npm.Verify npmBadSigWorld npmBadSigPkg = (some r, Option.none) ∧
      r.Status = ProvenanceStatusAttestations ∧
      r.HasAttestations = true ∧
      r.Status ≠ ProvenanceStatusVerified ∧
      r.Status ≠ ProvenanceStatusNone ∧
      r.ErrorMessage = "attestation verification failed: " ++ e ∧
      r.ErrorMessage ≠ "" ∧
      mapLookup r.Details "verification_error" = some (DetailVal.str e)) :=
  ⟨rfl,
    npm_failed_attestations_downgrade npmBadSigWorld npmBadSigPkg
      { Name := "badsig", Versions := [("4.0.0", npmBadSigVD)],
        Repository := Option.none }
      npmBadSigVD
      (JsonVal.obj
        [("url", JsonVal.str "https://registry.npmjs.org/-/npm/v1/attestations/badsig@4.0.0")])
      rfl rfl rfl rfl rfl⟩


/-- C3 (amended): an npm registry-metadata fetch failure makes Verify return a
non-nil error with status ERROR; but a network failure during attestation
verification — such as the tarball download for the artifact digest — is
downgraded to status ATTESTATIONS with a nil call error. -/
theorem npm_network_failure_semantics :
    (∀ (w : Npm.NpmWorld) (pkg : PackageIdentifier) (e : String),
      pkg.Protocol = ProtocolNPM →
      w.fetchPackageMetadata pkg.Name = Except.error e →
      ∃ r, Npm.Verify w pkg = (some r, some e) ∧
        r.Status = ProvenanceStatusError ∧ r.ErrorMessage ≠ "") ∧
    (∀ (w : Npm.NpmWorld) (pkg : PackageIdentifier)
        (metadata : Npm.PackageMetadata) (vd : Npm.VersionMetadata)
        (j : JsonVal) (e : String),
      pkg.Protocol = ProtocolNPM →
      w.fetchPackageMetadata pkg.Name = Except.ok metadata →
      mapLookup metadata.Versions pkg.Version = some vd →
      vd.Dist.Attestations = some j →
      (Npm.verifyAttestations w vd).2.2 = some e →
      ∃ r, Npm.Verify w pkg = (some r, Option.none) ∧
        r.Status = ProvenanceStatusAttestations) := by
  constructor
  · intro w pkg e hp hm
    have heq : Npm.Verify w pkg =
        (some { PackageID := pkg, Status := ProvenanceStatusError,
                ErrorMessage := "failed to fetch package metadata: " ++ e },
         some e) := by
      simp [Npm.Verify, hp, hm]
    exact ⟨_, heq, rfl,
      string_append_ne_empty "failed to fetch package metadata: " e (by decide)⟩
  · intro w pkg metadata vd j e hp hm hv ha hfail
    rcases Npm.verifyAttestations_shape w vd with ⟨p, hvp⟩ | ⟨e2, hve⟩
    · rw [hvp] at hfail
      simp at hfail
    · obtain ⟨_, hst, _⟩ := Npm.applyRepo_preserves metadata (Npm.coreResult w pkg vd)
      refine ⟨_, Npm.npmVerify_ok w pkg metadata vd hp hm hv, ?_⟩
      rw [hst]
      simp [Npm.coreResult, ha, hve]

/-- Version metadata with an embedded (inline) attestation object and a
tarball URL whose download will fail. -/
def npmTarballFailVD : Npm.VersionMetadata :=
  { Version := "1.2.3",
    Dist :=
      { Attestations :=
          some (JsonVal.obj [("provenance", JsonVal.str "inline-bundle")]),
        Signatures := Option.none,
        Tarball := "https://registry.npmjs.org/pkg/-/pkg-1.2.3.tgz" } }

/-- A world whose metadata fetch succeeds but whose tarball download (needed
for the artifact digest) fails at the network level. -/
def npmTarballFailWorld : Npm.NpmWorld :=
  { fetchPackageMetadata := fun _ => Except.ok
      { Name := "pkg", Versions := [("1.2.3", npmTarballFailVD)],
        Repository := Option.none },
    httpGet := fun _ => Except.error "connection refused",
    sha512 := fun _ => [],
    jsonMarshal := fun _ => Except.ok [3],
    newShortCertificateIdentity := fun issuer _ _ san =>
      Except.ok { issuer := issuer, sanRegex := san },
    verifyBundle := fun _ _ _ _ => Except.error "unused" }

/-- The package identity matching `npmTarballFailWorld`. -/
def npmTarballFailPkg : PackageIdentifier :=
  { Protocol := ProtocolNPM, Name := "pkg", Version := "1.2.3" }

/-- Counterexample to C3 as stated: in a run whose tarball download fails at
the network level, Verify returns a nil error and status ATTESTATIONS — not a
non-nil error with status ERROR. -/
theorem npm_tarball_fetch_failure_counterexample :
    npmTarballFailWorld.httpGet "https://registry.npmjs.org/pkg/-/pkg-1.2.3.tgz" =
      Except.error "connection refused" ∧
    (Npm.Verify npmTarballFailWorld npmTarballFailPkg).2 = Option.none ∧
    ((Npm.Verify npmTarballFailWorld npmTarballFailPkg).1.map
        ProvenanceResult.Status) = some ProvenanceStatusAttestations :=
  ⟨rfl, rfl, rfl⟩

/-- Witness for C3 (amended): the downgrade branch applies to the concrete
tarball-fetch-failure run. -/
theorem npm_network_failure_semantics_witness :
    (Npm.verifyAttestations npmTarballFailWorld npmTarballFailVD).2.2 =
      some "failed to calculate artifact digest: failed to fetch tarball: connection refused" ∧
    (∃ r, Npm.Verify npmTarballFailWorld npmTarballFailPkg = (some r, Option.none) ∧
      r.Status = ProvenanceStatusAttestations) :=
  ⟨rfl,
    npm_network_failure_semantics.2 npmTarballFailWorld npmTarballFailPkg
      { Name := "pkg", Versions := [("1.2.3", npmTarballFailVD)],
        Repository := Option.none }
      npmTarballFailVD
      (JsonVal.obj [("provenance", JsonVal.str "inline-bundle")])
      "failed to calculate artifact digest: failed to fetch tarball: connection refused"
      rfl rfl rfl rfl rfl⟩


/-- C2 (amended): for npm, a requested version absent from the registry
metadata versions map yields status ERROR with a non-empty errorMessage
mentioning the missing version, never NONE; the PyPI verifier has no
version-existence check — a version matching no file of the listing yields
status NONE with an empty errorMessage. -/
theorem missing_version_semantics :
    (∀ (w : Npm.NpmWorld) (pkg : PackageIdentifier)
        (metadata : Npm.PackageMetadata),
      pkg.Protocol = ProtocolNPM →
      w.fetchPackageMetadata pkg.Name = Except.ok metadata →
      mapLookup metadata.Versions pkg.Version = Option.none →
      ∃ r e, Npm.Verify w pkg = (some r, some e) ∧
        r.Status = ProvenanceStatusError ∧
        r.Status ≠ ProvenanceStatusNone ∧
        r.ErrorMessage ≠ "" ∧
        (∃ pre post, r.ErrorMessage = pre ++ pkg.Version ++ post)) ∧
    (∀ (w : Pypi.PypiWorld) (pkg : PackageIdentifier) (md : Pypi.SimpleMetadata),
      pkg.Protocol = ProtocolPyPI →
      w.fetchSimpleMetadata pkg.Name = Except.ok md →
      md.Files.filter (Pypi.isCandidate pkg.Version) = [] →
      ∃ r, Pypi.Verify w pkg = (some r, Option.none) ∧
        r.Status = ProvenanceStatusNone ∧ r.ErrorMessage = "") := by
  constructor
  · intro w pkg metadata hp hm hv
    have heq : Npm.Verify w pkg =
        (some { PackageID := pkg, Status := ProvenanceStatusError,
                ErrorMessage := "version " ++ pkg.Version ++ " not found" },
         some ("version " ++ pkg.Version ++ " not found in registry")) := by
      simp [Npm.Verify, hp, hm, hv]
    refine ⟨_, _, heq, rfl,
      by simp [ProvenanceStatusError, ProvenanceStatusNone], ?_,
      "version ", " not found", rfl⟩
    refine string_append_ne_empty ("version " ++ pkg.Version) " not found" ?_
    rw [String.length_append]
    show ¬(8 + pkg.Version.length = 0)
    omega
  · intro w pkg md hp hm hfil
    have hcnt : (md.Files.foldl (Pypi.processFile w pkg.Version) {}).attestationCount = 0 := by
      rw [Pypi.foldl_attestationCount, hfil]
      rfl
    have hver : (md.Files.foldl (Pypi.processFile w pkg.Version) {}).verifiedFiles = [] := by
      rw [Pypi.foldl_verifiedFiles, hfil]
      rfl
    refine ⟨_, Pypi.pypiVerify_ok w pkg md hp hm, ?_, ?_⟩
    · simp [Pypi.buildResult, hcnt, hver]
    · simp [Pypi.buildResult, hcnt, hver]

/-- A PyPI Simple-API listing with one file (with provenance) for version
1.0.0 only. -/
def pypiNoMatchMeta : Pypi.SimpleMetadata :=
  { Name := "mcp-clickhouse",
    Files :=
      [{ Filename := "mcp_clickhouse-1.0.0-py3-none-any.whl",
         URL := "https://files.pythonhosted.org/mcp_clickhouse-1.0.0-py3-none-any.whl",
         Provenance := "https://pypi.org/integrity/mcp-clickhouse/1.0.0/provenance",
         Hashes := [] }] }

/-- A world serving `pypiNoMatchMeta`; nothing else is reached when the
requested version matches no file. -/
def pypiNoMatchWorld : Pypi.PypiWorld :=
  { fetchSimpleMetadata := fun _ => Except.ok pypiNoMatchMeta,
    fetchProvenanceData := fun _ => Except.error "unused",
    jsonMarshal := fun _ => Except.error "unused",
    hexDecodeString := fun _ => Except.error "unused",
    downloadAndHashFile := fun _ => Except.error "unused",
    newShortCertificateIdentity := fun _ _ _ _ => Except.error "unused",
    verifyBundle := fun _ _ _ _ => Except.error "unused" }

/-- A request for a version that is published nowhere in the listing. -/
def pypiNoMatchPkg : PackageIdentifier :=
  { Protocol := ProtocolPyPI, Name := "mcp-clickhouse", Version := "9.9.9" }

/-- Counterexample to C2 as stated: for PyPI a requested version absent from
the file listing yields status NONE with an empty errorMessage and a nil call
error — not status ERROR with a message naming the version. -/
theorem pypi_missing_version_counterexample :
    pypiNoMatchMeta.Files.filter (Pypi.isCandidate pypiNoMatchPkg.Version) = [] ∧
    (Pypi.Verify pypiNoMatchWorld pypiNoMatchPkg).2 = Option.none ∧
    ((Pypi.Verify pypiNoMatchWorld pypiNoMatchPkg).1.map ProvenanceResult.Status) =
      some ProvenanceStatusNone ∧
    ((Pypi.Verify pypiNoMatchWorld pypiNoMatchPkg).1.map
        ProvenanceResult.ErrorMessage) = some "" :=
  ⟨rfl, rfl, rfl, rfl⟩

/-- Registry metadata for the npm missing-version run: version 9.9.9 is not
published. -/
def npmMissingVersionWorld : Npm.NpmWorld :=
  { fetchPackageMetadata := fun _ => Except.ok
      { Name := "agentql-mcp", Versions := [("1.0.0", { Version := "1.0.0", Dist := {} })],
        Repository := Option.none },
    httpGet := fun _ => Except.error "unused",
    sha512 := fun _ => [],
    jsonMarshal := fun _ => Except.error "unused",
    newShortCertificateIdentity := fun _ _ _ _ => Except.error "unused",
    verifyBundle := fun _ _ _ _ => Except.error "unused" }

/-- The npm request for the unpublished version 9.9.9. -/
def npmMissingVersionPkg : PackageIdentifier :=
  { Protocol := ProtocolNPM, Name := "agentql-mcp", Version := "9.9.9" }

/-- Witness for C2 (amended): the missing npm version yields ERROR with a
message naming the version, and the unmatched PyPI version yields NONE. -/
theorem missing_version_semantics_witness :
    (∃ r e, Npm.Verify npmMissingVersionWorld npmMissingVersionPkg = (some r, some e) ∧
      r.Status = ProvenanceStatusError ∧
      r.Status ≠ ProvenanceStatusNone ∧
      r.ErrorMessage ≠ "" ∧
      (∃ pre post, r.ErrorMessage = pre ++ npmMissingVersionPkg.Version ++ post)) ∧
    (∃ r, Pypi.Verify pypiNoMatchWorld pypiNoMatchPkg = (some r, Option.none) ∧
      r.Status = ProvenanceStatusNone ∧ r.ErrorMessage = "") :=
  ⟨missing_version_semantics.1 npmMissingVersionWorld npmMissingVersionPkg
      { Name := "agentql-mcp", Versions := [("1.0.0", { Version := "1.0.0", Dist := {} })],
        Repository := Option.none } rfl rfl rfl,
    missing_version_semantics.2 pypiNoMatchWorld pypiNoMatchPkg pypiNoMatchMeta
      rfl rfl rfl⟩


/-- The pypi status resolution keeps the loop state's candidate count and the
package identity in every branch. -/
theorem Pypi.buildResult_fields (pkg : PackageIdentifier) (st : Pypi.LoopState) :
    (Pypi.buildResult pkg st).AttestationCount = st.attestationCount ∧
    (Pypi.buildResult pkg st).PackageID = pkg := by
  unfold Pypi.buildResult
  repeat' split
  all_goals simp

/-- C5: for a PyPI verification with a fetched file listing, the candidate set
is exactly the files whose filename contains the requested version and which
declare a provenance reference; the status is VERIFIED when at least one
candidate verified (publisher = the first verified file's publisher), else
ATTESTATIONS when the candidate count is positive, else NONE; and every
per-candidate failure is recorded in details keyed by the filename without
aborting the remaining candidates. -/
theorem pypi_candidate_and_status_resolution (w : Pypi.PypiWorld)
    (pkg : PackageIdentifier) (md : Pypi.SimpleMetadata)
    (hp : pkg.Protocol = ProtocolPyPI)
    (hm : w.fetchSimpleMetadata pkg.Name = Except.ok md) :
    ∃ r, Pypi.Verify w pkg = (some r, Option.none) ∧
      r.AttestationCount = (md.Files.filter (Pypi.isCandidate pkg.Version)).length ∧
      (∀ f, f ∈ md.Files.filter (Pypi.isCandidate pkg.Version) ↔
        (f ∈ md.Files ∧ goContains f.Filename pkg.Version = true ∧
          f.Provenance ≠ "")) ∧
      ((md.Files.filter (Pypi.isCandidate pkg.Version)).filter
          (Pypi.fileVerified w) ≠ [] →
        r.Status = ProvenanceStatusVerified ∧ r.HasAttestations = true) ∧
      ((md.Files.filter (Pypi.isCandidate pkg.Version)).filter
          (Pypi.fileVerified w) = [] →
        (md.Files.filter (Pypi.isCandidate pkg.Version)).length > 0 →
        r.Status = ProvenanceStatusAttestations ∧ r.HasAttestations = true) ∧
      (md.Files.filter (Pypi.isCandidate pkg.Version) = [] →
        r.Status = ProvenanceStatusNone) ∧
      (∀ f rest,
        (md.Files.filter (Pypi.isCandidate pkg.Version)).filter
          (Pypi.fileVerified w) = f :: rest →
        r.TrustedPublisher = (Pypi.verifyProvenance w f).2.1) ∧
      (∀ f e, f ∈ md.Files.filter (Pypi.isCandidate pkg.Version) →
        (Pypi.verifyProvenance w f).2.2 = some e →
        (mapLookup r.Details ("verification_error_" ++ f.Filename)).isSome = true) := by
  have hver2 : (md.Files.foldl (Pypi.processFile w pkg.Version) {}).verifiedFiles =
      ((md.Files.filter (Pypi.isCandidate pkg.Version)).filter
        (Pypi.fileVerified w)).map Pypi.File.Filename := by
    simpa using Pypi.foldl_verifiedFiles w pkg.Version md.Files {}
  have hcnt2 : (md.Files.foldl (Pypi.processFile w pkg.Version) {}).attestationCount =
      (md.Files.filter (Pypi.isCandidate pkg.Version)).length := by
    simpa using Pypi.foldl_attestationCount w pkg.Version md.Files {}
  have hfp2 := Pypi.foldl_firstPublisher w pkg.Version md.Files {} (by rfl)
  refine ⟨_, Pypi.pypiVerify_ok w pkg md hp hm, ?_, ?_, ?_, ?_, ?_, ?_, ?_⟩
  · rw [(Pypi.buildResult_fields pkg _).1, hcnt2]
  · intro f
    simp [List.mem_filter, Pypi.isCandidate, Bool.and_eq_true, bne_iff_ne,
      and_assoc]
  · intro hne
    have hlen : 0 <
        ((md.Files.foldl (Pypi.processFile w pkg.Version) {}).verifiedFiles).length := by
      rw [hver2, List.length_map]
      exact List.length_pos.mpr hne
    constructor <;> simp [Pypi.buildResult, hlen]
  · intro hnil hpos
    have hlen : ¬(0 <
        ((md.Files.foldl (Pypi.processFile w pkg.Version) {}).verifiedFiles).length) := by
      rw [hver2, hnil]
      simp
    have hpos2 : 0 < (md.Files.foldl (Pypi.processFile w pkg.Version) {}).attestationCount := by
      rw [hcnt2]
      exact hpos
    constructor <;> simp [Pypi.buildResult, hlen, hpos2]
  · intro hFnil
    have hVnil : (md.Files.filter (Pypi.isCandidate pkg.Version)).filter
        (Pypi.fileVerified w) = [] := by
      rw [hFnil]
      rfl
    have hlen : ¬(0 <
        ((md.Files.foldl (Pypi.processFile w pkg.Version) {}).verifiedFiles).length) := by
      rw [hver2, hVnil]
      simp
    have hcz : (md.Files.foldl (Pypi.processFile w pkg.Version) {}).attestationCount = 0 := by
      rw [hcnt2, hFnil]
      rfl
    simp [Pypi.buildResult, hlen, hcz]
  · intro f rest hVcons
    have hne : (md.Files.filter (Pypi.isCandidate pkg.Version)).filter
        (Pypi.fileVerified w) ≠ [] := by
      rw [hVcons]
      simp
    have hlen : 0 <
        ((md.Files.foldl (Pypi.processFile w pkg.Version) {}).verifiedFiles).length := by
      rw [hver2, List.length_map]
      exact List.length_pos.mpr hne
    have htp : (Pypi.buildResult pkg
        (md.Files.foldl (Pypi.processFile w pkg.Version) {})).TrustedPublisher =
        (md.Files.foldl (Pypi.processFile w pkg.Version) {}).firstPublisher := by
      simp [Pypi.buildResult, hlen]
    rw [htp, hfp2, hVcons]
  · intro f e hmemF hfail
    have hmem : f ∈ md.Files := (List.mem_filter.mp hmemF).1
    have hcand : Pypi.isCandidate pkg.Version f = true := (List.mem_filter.mp hmemF).2
    have hkey := Pypi.foldl_details_records_failures w pkg.Version md.Files {} f e
      hmem hcand hfail
    by_cases hlen : 0 <
        ((md.Files.foldl (Pypi.processFile w pkg.Version) {}).verifiedFiles).length
    · simp only [Pypi.buildResult, hlen, if_true, gt_iff_lt]
      rw [mapLookup_assocInsert]
      split
      · rfl
      · exact hkey
    · by_cases hc : 0 < (md.Files.foldl (Pypi.processFile w pkg.Version) {}).attestationCount
      · simp only [Pypi.buildResult, gt_iff_lt, hlen, hc, if_true, if_false]
        exact hkey
      · simp only [Pypi.buildResult, gt_iff_lt, hlen, hc, if_false]
        exact hkey


/-- The PyPI file listing used for the C5 witness: two files of version 2.1.0,
both with provenance references and published sha256 hashes. -/
def pypiTwoFilesMeta : Pypi.SimpleMetadata :=
  { Name := "demo",
    Files :=
      [{ Filename := "demo-2.1.0-py3-none-any.whl",
         URL := "https://files.pythonhosted.org/demo-2.1.0-py3-none-any.whl",
         Provenance := "https://pypi.org/integrity/demo/2.1.0/prov-a",
         Hashes := [("sha256", "aa")] },
       { Filename := "demo-2.1.0.tar.gz",
         URL := "https://files.pythonhosted.org/demo-2.1.0.tar.gz",
         Provenance := "https://pypi.org/integrity/demo/2.1.0/prov-b",
         Hashes := [("sha256", "bb")] }] }

/-- The provenance object both files reference: one bundle from a GitHub
trusted publisher with a single attestation. -/
def pypiTwoFilesProv : Pypi.ProvenanceObject :=
  { Version := 1,
    AttestationBundles :=
      [{ Publisher :=
          { Kind := "GitHub", Repository := "demo-org/demo",
            Workflow := "release.yml", Claims := [] },
         Attestations := [JsonVal.null] }] }

/-- A world in which the wheel's bundle verifies but the sdist's bundle is
rejected (the two are told apart by their decoded sha256 digests). -/
def pypiTwoFilesWorld : Pypi.PypiWorld :=
  { fetchSimpleMetadata := fun _ => Except.ok pypiTwoFilesMeta,
    fetchProvenanceData := fun _ => Except.ok pypiTwoFilesProv,
    jsonMarshal := fun _ => Except.ok [1],
    hexDecodeString := fun s => if s == "aa" then Except.ok [10] else Except.ok [11],
    downloadAndHashFile := fun _ => Except.error "unused",
    newShortCertificateIdentity := fun issuer _ _ san =>
      Except.ok { issuer := issuer, sanRegex := san },
    verifyBundle := fun _ _ digest _ =>
      if digest == [10] then Except.ok {}
      else Except.error "bundle verification failed: corrupted bundle" }

/-- The request matching `pypiTwoFilesMeta`. -/
def pypiTwoFilesPkg : PackageIdentifier :=
  { Protocol := ProtocolPyPI, Name := "demo", Version := "2.1.0" }

/-- Witness for C5: on the concrete two-file listing the claim theorem
applies, and the computed result is VERIFIED with the corrupted file's failure
recorded under its filename while the wheel's publisher is reported. -/
theorem pypi_candidate_and_status_resolution_witness :
    (∃ r, Pypi.Verify pypiTwoFilesWorld pypiTwoFilesPkg = (some r, Option.none) ∧
      r.AttestationCount =
        (pypiTwoFilesMeta.Files.filter
          (Pypi.isCandidate pypiTwoFilesPkg.Version)).length ∧
      (∀ f, f ∈ pypiTwoFilesMeta.Files.filter
          (Pypi.isCandidate pypiTwoFilesPkg.Version) ↔
        (f ∈ pypiTwoFilesMeta.Files ∧
          goContains f.Filename pypiTwoFilesPkg.Version = true ∧
          f.Provenance ≠ "")) ∧
      ((pypiTwoFilesMeta.Files.filter
          (Pypi.isCandidate pypiTwoFilesPkg.Version)).filter
          (Pypi.fileVerified pypiTwoFilesWorld) ≠ [] →
        r.Status = ProvenanceStatusVerified ∧ r.HasAttestations = true) ∧
      ((pypiTwoFilesMeta.Files.filter
          (Pypi.isCandidate pypiTwoFilesPkg.Version)).filter
          (Pypi.fileVerified pypiTwoFilesWorld) = [] →
        (pypiTwoFilesMeta.Files.filter
          (Pypi.isCandidate pypiTwoFilesPkg.Version)).length > 0 →
        r.Status = ProvenanceStatusAttestations ∧ r.HasAttestations = true) ∧
      (pypiTwoFilesMeta.Files.filter
          (Pypi.isCandidate pypiTwoFilesPkg.Version) = [] →
        r.Status = ProvenanceStatusNone) ∧
      (∀ f rest,
        (pypiTwoFilesMeta.Files.filter
          (Pypi.isCandidate pypiTwoFilesPkg.Version)).filter
          (Pypi.fileVerified pypiTwoFilesWorld) = f :: rest →
        r.TrustedPublisher =
          (Pypi.verifyProvenance pypiTwoFilesWorld f).2.1) ∧
      (∀ f e, f ∈ pypiTwoFilesMeta.Files.filter
          (Pypi.isCandidate pypiTwoFilesPkg.Version) →
        (Pypi.verifyProvenance pypiTwoFilesWorld f).2.2 = some e →
        (mapLookup r.Details ("verification_error_" ++ f.Filename)).isSome = true)) ∧
    ((Pypi.Verify pypiTwoFilesWorld pypiTwoFilesPkg).1.map ProvenanceResult.Status =
      some ProvenanceStatusVerified) ∧
    ((Pypi.Verify pypiTwoFilesWorld pypiTwoFilesPkg).1.map (fun r =>
        mapLookup r.Details "verification_error_demo-2.1.0.tar.gz") =
      some (some (DetailVal.str "bundle verification failed: corrupted bundle"))) ∧
    ((Pypi.Verify pypiTwoFilesWorld pypiTwoFilesPkg).1.map (fun r =>
        r.TrustedPublisher.map TrustedPublisher.Repository) =
      some (some "demo-org/demo")) :=
  ⟨pypi_candidate_and_status_resolution pypiTwoFilesWorld pypiTwoFilesPkg
      pypiTwoFilesMeta rfl rfl,
    rfl, rfl, rfl⟩


/-- The npm branch construction stamps the request's package identity on the
result. -/
theorem Npm.coreResult_pkgid (w : Npm.NpmWorld) (pkg : PackageIdentifier)
    (vd : Npm.VersionMetadata) :
    (Npm.coreResult w pkg vd).PackageID = pkg := by
  unfold Npm.coreResult
  repeat' split
  all_goals rfl

/-- When npm Verify returns no error it returns a result stamped with the
request's package identity. -/
theorem Npm.npmVerify_pkgid (w : Npm.NpmWorld) (pkg : PackageIdentifier)
    (h : (Npm.Verify w pkg).2 = Option.none) :
    ∃ r, (Npm.Verify w pkg).1 = some r ∧ r.PackageID = pkg := by
  by_cases hp : (pkg.Protocol != ProtocolNPM) = true
  · exfalso
    unfold Npm.Verify at h
    rw [if_pos hp] at h
    simp at h
  · have hpe : pkg.Protocol = ProtocolNPM := by simpa using hp
    rcases hm : w.fetchPackageMetadata pkg.Name with e | metadata
    · exfalso
      simp [Npm.Verify, hpe, hm] at h
    · rcases hv : mapLookup metadata.Versions pkg.Version with _ | vd
      · exfalso
        simp [Npm.Verify, hpe, hm, hv] at h
      · refine ⟨_, by rw [Npm.npmVerify_ok w pkg metadata vd hpe hm hv], ?_⟩
        rw [(Npm.applyRepo_preserves _ _).1]
        exact Npm.coreResult_pkgid w pkg vd

/-- When pypi Verify returns no error it returns a result stamped with the
request's package identity. -/
theorem Pypi.pypiVerify_pkgid (w : Pypi.PypiWorld) (pkg : PackageIdentifier)
    (h : (Pypi.Verify w pkg).2 = Option.none) :
    ∃ r, (Pypi.Verify w pkg).1 = some r ∧ r.PackageID = pkg := by
  by_cases hp : (pkg.Protocol != ProtocolPyPI) = true
  · exfalso
    unfold Pypi.Verify at h
    rw [if_pos hp] at h
    simp at h
  · have hpe : pkg.Protocol = ProtocolPyPI := by simpa using hp
    rcases hm : w.fetchSimpleMetadata pkg.Name with e | md
    · exfalso
      simp [Pypi.Verify, hpe, hm] at h
    · refine ⟨_, by rw [Pypi.pypiVerify_ok w pkg md hpe hm], ?_⟩
      exact (Pypi.buildResult_fields pkg _).2

/-- The Service stamps the package identity on every result it produces,
provided each registered verifier does so on its own no-error results. -/
theorem Service.verifyProvenance_pkgid (s : Service.Service)
    (pkg : PackageIdentifier)
    (H : ∀ v, (∃ proto, mapLookup s.verifiers proto = some v) →
      ∀ pkg2, (v.Verify pkg2).2 = Option.none →
        ∃ r2, (v.Verify pkg2).1 = some r2 ∧ r2.PackageID = pkg2) :
    ∃ r, (Service.VerifyProvenance s pkg).1 = some r ∧ r.PackageID = pkg := by
  unfold Service.VerifyProvenance
  split
  · exact ⟨_, rfl, rfl⟩
  · rename_i verifier hlook
    split
    · exact ⟨_, rfl, rfl⟩
    · rename_i result heq
      obtain ⟨r2, h1, h2⟩ := H verifier ⟨pkg.Protocol, hlook⟩ pkg (by rw [heq])
      rw [heq] at h1
      exact ⟨r2, h1, h2⟩

/-- The error scan returns nil exactly when every per-package error is nil. -/
theorem Service.firstError_eq_none (l : List (Option String)) :
    Service.firstError l = Option.none ↔ ∀ x ∈ l, x = Option.none := by
  induction l with
  | nil => simp [Service.firstError]
  | cons a rest ih =>
    cases a with
    | none => simp [Service.firstError, ih]
    | some e => simp [Service.firstError]

/-- A non-nil scan outcome is the error of the least index whose entry is
non-nil. -/
theorem Service.firstError_some_inv :
    ∀ (l : List (Option String)) (e : String), Service.firstError l = some e →
    ∃ i : Nat, l[i]? = some (some e) ∧
      ∀ j : Nat, j < i → l[j]? = some Option.none := by
  intro l
  induction l with
  | nil =>
    intro e h
    simp [Service.firstError] at h
  | cons a rest ih =>
    intro e h
    cases a with
    | some e2 =>
      unfold Service.firstError at h
      refine ⟨0, by simpa using h, ?_⟩
      intro j hj
      exact absurd hj (Nat.not_lt_zero j)
    | none =>
      unfold Service.firstError at h
      obtain ⟨i, h1, h2⟩ := ih e h
      refine ⟨i + 1, by simpa using h1, ?_⟩
      intro j hj
      cases j with
      | zero => simp
      | succ jj =>
        have hji : jj < i := Nat.lt_of_succ_lt_succ hj
        simpa using h2 jj hji

/-- C6: BatchVerify returns one result per input package, at matching indices;
slot i holds exactly the independent verification outcome of packages[i]
(stamped with that package's identity, when the registered verifiers stamp
theirs); and the call's error is the first per-package error in index order,
nil when none occurred. -/
theorem batch_verify_characterization (s : Service.Service)
    (packages : List PackageIdentifier)
    (H : ∀ v, (∃ proto, mapLookup s.verifiers proto = some v) →
      ∀ pkg2, (v.Verify pkg2).2 = Option.none →
        ∃ r2, (v.Verify pkg2).1 = some r2 ∧ r2.PackageID = pkg2) :
    (Service.BatchVerify s packages).1.length = packages.length ∧
    (∀ (i : Nat) (pkg : PackageIdentifier), packages[i]? = some pkg →
      (Service.BatchVerify s packages).1[i]? =
        some ((Service.VerifyProvenance s pkg).1) ∧
      ∃ r : ProvenanceResult,
        (Service.BatchVerify s packages).1[i]? = some (some r) ∧
        r.PackageID = pkg) ∧
    ((∀ pkg ∈ packages, (Service.VerifyProvenance s pkg).2 = Option.none) →
      (Service.BatchVerify s packages).2 = Option.none) ∧
    (∀ e, (Service.BatchVerify s packages).2 = some e →
      ∃ (i : Nat) (pkg : PackageIdentifier), packages[i]? = some pkg ∧
        (Service.VerifyProvenance s pkg).2 = some e ∧
        (∀ (j : Nat) (pkg2 : PackageIdentifier), j < i → packages[j]? = some pkg2 →
          (Service.VerifyProvenance s pkg2).2 = Option.none)) := by
  have hfst : (Service.BatchVerify s packages).1 =
      packages.map (fun p => (Service.VerifyProvenance s p).1) := by
    simp [Service.BatchVerify]
  have hsnd : (Service.BatchVerify s packages).2 =
      Service.firstError (packages.map (fun p => (Service.VerifyProvenance s p).2)) := by
    simp only [Service.BatchVerify, List.map_map, Function.comp_def]
  refine ⟨?_, ?_, ?_, ?_⟩
  · rw [hfst, List.length_map]
  · intro i pkg hpkg
    constructor
    · rw [hfst, List.getElem?_map, hpkg]
      rfl
    · obtain ⟨r, h1, h2⟩ := Service.verifyProvenance_pkgid s pkg H
      refine ⟨r, ?_, h2⟩
      rw [hfst, List.getElem?_map, hpkg]
      simpa using h1
  · intro hall
    rw [hsnd, Service.firstError_eq_none]
    intro x hx
    obtain ⟨p, hp, hxp⟩ := List.mem_map.mp hx
    rw [← hxp]
    exact hall p hp
  · intro e he
    rw [hsnd] at he
    obtain ⟨i, h1, h2⟩ := Service.firstError_some_inv _ e he
    rw [List.getElem?_map] at h1
    rcases hpi : packages[i]? with _ | pkg
    · rw [hpi] at h1
      exact Option.noConfusion h1
    · rw [hpi] at h1
      simp only [Option.map_some', Option.some.injEq] at h1
      refine ⟨i, pkg, hpi, h1, ?_⟩
      intro j pkg2 hj hpj
      have := h2 j hj
      rw [List.getElem?_map, hpj] at this
      simpa using this


/-- An npm world whose registry metadata fetch times out. -/
def npmBatchWorld : Npm.NpmWorld :=
  { fetchPackageMetadata := fun _ => Except.error "dial tcp: i/o timeout",
    httpGet := fun _ => Except.error "unused",
    sha512 := fun _ => [],
    jsonMarshal := fun _ => Except.error "unused",
    newShortCertificateIdentity := fun _ _ _ _ => Except.error "unused",
    verifyBundle := fun _ _ _ _ => Except.error "unused" }

/-- A pypi world serving an empty file listing. -/
def pypiBatchWorld : Pypi.PypiWorld :=
  { fetchSimpleMetadata := fun _ => Except.ok { Name := "mcp-clickhouse", Files := [] },
    fetchProvenanceData := fun _ => Except.error "unused",
    jsonMarshal := fun _ => Except.error "unused",
    hexDecodeString := fun _ => Except.error "unused",
    downloadAndHashFile := fun _ => Except.error "unused",
    newShortCertificateIdentity := fun _ _ _ _ => Except.error "unused",
    verifyBundle := fun _ _ _ _ => Except.error "unused" }

/-- The production-shaped service: npm and pypi verifiers registered, in the
order cmd/dockhand registers them. -/
def batchService : Service.Service :=
  (Service.RegisterVerifier
    (Service.RegisterVerifier Service.New ProtocolNPM
      (some (npmRegVerifier npmBatchWorld))).1
    ProtocolPyPI (some (pypiRegVerifier pypiBatchWorld))).1

/-- A batch of three packages: the npm one's metadata fetch fails, the pypi
one succeeds with no provenance, the go one has no registered verifier. -/
def batchPackages : List PackageIdentifier :=
  [{ Protocol := ProtocolNPM, Name := "context7", Version := "1.0.0" },
   { Protocol := ProtocolPyPI, Name := "mcp-clickhouse", Version := "1.0.0" },
   { Protocol := ProtocolGo, Name := "golang.org/x/example", Version := "0.1.0" }]

/-- Both verifiers registered in `batchService` stamp the request's package
identity on their no-error results. -/
theorem batchService_pkgid :
    ∀ v, (∃ proto, mapLookup batchService.verifiers proto = some v) →
      ∀ pkg2, (v.Verify pkg2).2 = Option.none →
        ∃ r2, (v.Verify pkg2).1 = some r2 ∧ r2.PackageID = pkg2 := by
  intro v hv pkg2
  obtain ⟨proto, hproto⟩ := hv
  have hsv : batchService.verifiers =
      [(ProtocolNPM, npmRegVerifier npmBatchWorld),
       (ProtocolPyPI, pypiRegVerifier pypiBatchWorld)] := rfl
  rw [hsv] at hproto
  simp only [mapLookup] at hproto
  split at hproto
  · simp only [Option.some.injEq] at hproto
    subst hproto
    intro h
    exact Npm.npmVerify_pkgid npmBatchWorld pkg2 h
  · split at hproto
    · simp only [Option.some.injEq] at hproto
      subst hproto
      intro h
      exact Pypi.pypiVerify_pkgid pypiBatchWorld pkg2 h
    · exact absurd hproto (by simp)

/-- Witness for C6: in the concrete three-package batch the claim theorem
applies, the per-slot outcomes are ERROR / NONE / UNKNOWN in input order, and
the call error is the npm package's fetch error. -/
theorem batch_verify_characterization_witness :
    (Service.BatchVerify batchService batchPackages).1.length =
      batchPackages.length ∧
    ((Service.BatchVerify batchService batchPackages).1.map
        (Option.map ProvenanceResult.Status) =
      [some ProvenanceStatusError, some ProvenanceStatusNone,
        some ProvenanceStatusUnknown]) ∧
    (Service.BatchVerify batchService batchPackages).2 =
      some "dial tcp: i/o timeout" ∧
    (∀ (i : Nat) (pkg : PackageIdentifier), batchPackages[i]? = some pkg →
      ∃ r : ProvenanceResult,
        (Service.BatchVerify batchService batchPackages).1[i]? = some (some r) ∧
        r.PackageID = pkg) :=
  ⟨(batch_verify_characterization batchService batchPackages batchService_pkgid).1,
   rfl, rfl,
   fun i pkg h =>
     ((batch_verify_characterization batchService batchPackages
        batchService_pkgid).2.1 i pkg h).2⟩

end Dockyard
